import Mathlib

/-!
# Authentication core of the Node/Express/Prisma boilerplate

A shallow embedding of `src/services/authService.js`,
`src/middlewares/authMiddleware.js`, `src/middlewares/errorHandler.js` and
`src/utils/ApiResponse.js`, followed by the properties proved about them.

Conventions of the embedding:

* a JavaScript value that may be `undefined` is an `Option`;
* a function that may throw (or an `async` function that may reject) returns
  `Except JsError _`;
* the collaborators the code reaches through `require` (bcrypt, jsonwebtoken,
  nodemailer, the Prisma client) are explicit arguments;
* `Date.now()` is the explicit argument `now` (seconds).
-/

namespace Boilerplate

/-! ## JavaScript values -/

/-- Equality of two outcomes of a call that may throw is decidable. -/
instance decEqExcept {ε α : Type} [DecidableEq ε] [DecidableEq α] :
    DecidableEq (Except ε α)
  | .ok a, .ok b =>
    if h : a = b then isTrue (by rw [h]) else isFalse (fun h₁ => h (Except.ok.inj h₁))
  | .error a, .error b =>
    if h : a = b then isTrue (by rw [h]) else isFalse (fun h₁ => h (Except.error.inj h₁))
  | .ok _, .error _ => isFalse (fun h => nomatch h)
  | .error _, .ok _ => isFalse (fun h => nomatch h)

/-- Identifier of a user row. -/
abbrev UserId := Nat

/-- A JavaScript error object, reduced to the properties the code reads:
`name`, `message`, `stack` (every `Error`), `statusCode`, `status`,
`isOperational` (`AppError`), `code` and `meta.target` (Prisma). -/
structure JsError where
  name : String
  message : String
  statusCode : Option Nat
  status : Option String
  isOperational : Bool
  code : Option String
  metaTarget : Option (List String)
  stack : Option String
deriving DecidableEq, Repr

/-- A plain `new Error(message)` thrown by a library. -/
def plainError (name message : String) : JsError :=
  { name := name, message := message, statusCode := none, status := none,
    isOperational := false, code := none, metaTarget := none,
    stack := some (name ++ ": " ++ message) }

/-- Modelled from the spec: the class `AppError` of `utils/AppError.js`, which is
required by the sources but is not among them. The spec's error taxonomy makes
every member but `Internal` operational and disclosing its message, so
`new AppError(message, statusCode)` carries the message, the status code and
`isOperational = true`; its `name` is the inherited `Error` and its stack the
text every `Error` gets. The spec says nothing of `status`, left unset here. -/
def AppError (message : String) (statusCode : Nat) : JsError :=
  { name := "Error", message := message, statusCode := some statusCode,
    status := none, isOperational := true, code := none, metaTarget := none,
    stack := some ("Error: " ++ message) }

/-- JavaScript truthiness of a possibly undefined string: `undefined` and `''`
are falsy. -/
def truthyStr : Option String → Option String
  | some s => if s = "" then none else some s
  | none => none

/-- The expression `a || b` on a possibly undefined string `a`. -/
def orElseStr (a : Option String) (b : String) : String :=
  match truthyStr a with
  | some s => s
  | none => b

/-- Interpolation of a possibly undefined string in a template literal. -/
def interp : Option String → String
  | some s => s
  | none => "undefined"

/-- The variables of `process.env` the sources read. -/
structure ProcessEnv where
  NODE_ENV : Option String
  JWT_SECRET : Option String
  JWT_EXPIRES_IN : Option String
  RATE_LIMIT_WINDOW_MS : Option String
  RATE_LIMIT_MAX_REQUESTS : Option String
  APP_NAME : Option String
  EMAIL_FROM : Option String
  EMAIL_USER : Option String
deriving DecidableEq, Repr

/-! ## The user table -/

/-- Modelled from the spec: a row of the user table. The Prisma schema is not
among the sources; the columns are those the sources select or write, with the
attributes the spec's data model gives an Identity. -/
structure User where
  id : UserId
  email : String
  password : String
  firstName : String
  lastName : String
  role : String
  isActive : Bool
  isVerified : Bool
  createdAt : Nat
  updatedAt : Nat
deriving DecidableEq, Repr

/-- A JavaScript object holding some of the columns of a user row: the result of
a Prisma query with a `select`, or of an object spread. An absent property is
`none` (reading it gives `undefined`). -/
structure UserObj where
  id : Option UserId
  email : Option String
  password : Option String
  firstName : Option String
  lastName : Option String
  role : Option String
  isActive : Option Bool
  isVerified : Option Bool
  createdAt : Option Nat
  updatedAt : Option Nat
deriving DecidableEq, Repr

/-- The columns of the user table. -/
inductive Field where
  | id | email | password | firstName | lastName | role
  | isActive | isVerified | createdAt | updatedAt
deriving DecidableEq, Repr

/-- One property of a selected object: present iff its column is selected. -/
def pick {α : Type} (sel : List Field) (f : Field) (v : α) : Option α :=
  if f ∈ sel then some v else none

/-- The object Prisma returns for a row under `select: { f: true, ... }`. -/
def User.select (u : User) (sel : List Field) : UserObj :=
  { id := pick sel .id u.id
    email := pick sel .email u.email
    password := pick sel .password u.password
    firstName := pick sel .firstName u.firstName
    lastName := pick sel .lastName u.lastName
    role := pick sel .role u.role
    isActive := pick sel .isActive u.isActive
    isVerified := pick sel .isVerified u.isVerified
    createdAt := pick sel .createdAt u.createdAt
    updatedAt := pick sel .updatedAt u.updatedAt }

/-- Every column: what a Prisma query without `select` returns. -/
def allFields : List Field :=
  [.id, .email, .password, .firstName, .lastName, .role,
   .isActive, .isVerified, .createdAt, .updatedAt]

/-- The contents of the user table. -/
structure Store where
  users : List User
  nextId : UserId
deriving DecidableEq, Repr

/-- The Prisma client as one call sees it: either the database answers from its
current contents, or the query is rejected with an error. -/
inductive Prisma where
  | up (s : Store)
  | down (e : JsError)
deriving DecidableEq, Repr

/-- `prisma.user.findUnique({ where: { email } })`, before any `select`. -/
def Prisma.findUniqueByEmail : Prisma → String → Except JsError (Option User)
  | .up s, email => .ok (s.users.find? (fun u => u.email == email))
  | .down e, _ => .error e

/-- `prisma.user.findUnique({ where: { id } })`, before any `select`. -/
def Prisma.findUniqueById : Prisma → UserId → Except JsError (Option User)
  | .up s, id => .ok (s.users.find? (fun u => u.id == id))
  | .down e, _ => .error e

/-- The error Prisma raises on a violated unique constraint. -/
def uniqueViolation (field : String) : JsError :=
  { name := "PrismaClientKnownRequestError",
    message := "Unique constraint failed on the fields: (" ++ field ++ ")",
    statusCode := none, status := none, isOperational := false,
    code := some "P2002", metaTarget := some [field],
    stack := some "PrismaClientKnownRequestError" }

/-- Modelled from the spec: `prisma.user.create({ data })`. The schema is not
among the sources; per the spec a new Identity gets a fresh identifier, role
`USER`, `isActive = true`, `isVerified = false`, and a duplicate email surfaces
as a unique-constraint violation. -/
def Prisma.create (db : Prisma) (email password firstName lastName : String)
    (now : Nat) : Except JsError (User × Prisma) :=
  match db with
  | .down e => .error e
  | .up s =>
    if s.users.any (fun u => u.email == email) then .error (uniqueViolation "email")
    else
      let row : User :=
        { id := s.nextId, email := email, password := password,
          firstName := firstName, lastName := lastName, role := "USER",
          isActive := true, isVerified := false, createdAt := now, updatedAt := now }
      .ok (row, .up { users := s.users ++ [row], nextId := s.nextId + 1 })

/-! ## Libraries -/

/-- The payload of a token minted by `generateToken`: the claim `id` and the
registered claims `iat` and `exp` (seconds). -/
structure JwtPayload where
  id : UserId
  iat : Nat
  exp : Nat
deriving DecidableEq, Repr

/-- The jsonwebtoken library's codec. `encode secret p` serialises and signs a
payload; `decode secret t` parses `t` and checks its signature against `secret`,
giving the library's message when the token is malformed or the signature does
not match; `timespan` reads a duration such as `7d` (seconds). The one law is
that a token decodes, under the secret that signed it, to its payload. -/
structure JwtLib where
  encode : String → JwtPayload → String
  decode : String → String → Except String JwtPayload
  timespan : String → Option Nat
  decode_encode : ∀ secret p, decode secret (encode secret p) = .ok p

/-- `jwt.sign({ id }, secret, { expiresIn })` at time `now`: throws without a
secret or with an unreadable duration. -/
def jwtSign (jwt : JwtLib) (id : UserId) (secret : Option String) (expiresIn : String)
    (now : Nat) : Except JsError String :=
  match truthyStr secret with
  | none => .error (plainError "Error" "secretOrPrivateKey must have a value")
  | some s =>
    match jwt.timespan expiresIn with
    | none => .error (plainError "Error"
        "\"expiresIn\" should be a number of seconds or string representing a timespan")
    | some span => .ok (jwt.encode s { id := id, iat := now, exp := now + span })

/-- `jwt.verify(token, secret)` at time `now`: a `JsonWebTokenError` when the
token does not decode under the secret, a `TokenExpiredError` once `now` has
reached `exp`, the payload otherwise. -/
def jwtVerify (jwt : JwtLib) (token : String) (secret : Option String) (now : Nat) :
    Except JsError JwtPayload :=
  match truthyStr secret with
  | none => .error (plainError "JsonWebTokenError" "secret or public key must be provided")
  | some s =>
    match jwt.decode s token with
    | .error msg => .error (plainError "JsonWebTokenError" msg)
    | .ok p =>
      if now ≥ p.exp then .error (plainError "TokenExpiredError" "jwt expired")
      else .ok p

/-- The options handed to nodemailer's `sendMail`. -/
structure MailOptions where
  sender : Option String
  recipient : Option String
  subject : String
  html : String
deriving DecidableEq, Repr

/-- The libraries behind `authService.js` and `emailService.js`: bcrypt's `hash`
and `compare`, jsonwebtoken, and the nodemailer transporter (which answers a
message id or fails). -/
structure Lib where
  bcryptHash : String → Nat → String
  bcryptCompare : String → String → Bool
  jwt : JwtLib
  sendMail : MailOptions → Except JsError String

/-! ## `src/services/emailService.js` -/

/-- `EmailService.sendEmail(options)`: builds the mail options, awaits the
transporter, and rethrows what it throws. -/
def EmailService.sendEmail (env : ProcessEnv) (lib : Lib) (recipient : Option String)
    (subject html : String) : Except JsError String :=
  let mailOptions : MailOptions :=
    { sender := match truthyStr env.EMAIL_FROM with
        | some f => some f
        | none => env.EMAIL_USER
      recipient := recipient
      subject := subject
      html := html }
  match lib.sendMail mailOptions with
  | .ok messageId => .ok messageId
  | .error error => .error error

/-- `EmailService.sendWelcomeEmail(user)`. -/
def EmailService.sendWelcomeEmail (env : ProcessEnv) (lib : Lib) (user : UserObj) :
    Except JsError String :=
  let subject := "Welcome to " ++ interp env.APP_NAME ++ "!"
  let html :=
    "\n      <div style=\"font-family: Arial, sans-serif; padding: 20px;\">" ++
    "\n        <h1>Welcome " ++ orElseStr user.firstName "User" ++ "!</h1>" ++
    "\n        <p>Thank you for joining " ++ interp env.APP_NAME ++ ".</p>" ++
    "\n        <p>We're excited to have you on board.</p>" ++
    "\n        <p>Best regards,<br>" ++ interp env.APP_NAME ++ " Team</p>" ++
    "\n      </div>" ++
    "\n    "
  EmailService.sendEmail env lib user.email subject html

/-! ## `src/services/authService.js` -/

/-- What a service call does besides returning, in order. -/
inductive Effect where
  | findUnique
  | bcryptHash (password : String) (cost : Nat)
  | bcryptCompare
  | create (email : String)
  | sendWelcomeEmail (recipient : Option String)
  | logWarn (message : String)
  | jwtSign (id : UserId)
deriving DecidableEq, Repr

/-- The outcome of an `async` service method: the value it resolves to or the
error it rejects with, the database afterwards, and the effects it performed. -/
structure Run (α : Type) where
  result : Except JsError α
  db : Prisma
  trace : List Effect

/-- The object `{ user, token }` that `register` and `login` resolve to. -/
structure AuthResult where
  user : UserObj
  token : String
deriving DecidableEq, Repr

/-- The body `{ email, password, firstName, lastName }` given to `register`. -/
structure UserData where
  email : String
  password : String
  firstName : String
  lastName : String
deriving DecidableEq, Repr

/-- `AuthService.generateToken(userId)`. -/
def AuthService.generateToken (env : ProcessEnv) (lib : Lib) (now : Nat) (userId : UserId) :
    Except JsError String :=
  jwtSign lib.jwt userId env.JWT_SECRET (orElseStr env.JWT_EXPIRES_IN "7d") now

/-- The columns `register` selects from the row it creates. -/
def registerSelect : List Field :=
  [.id, .email, .firstName, .lastName, .role, .createdAt]

/-- `AuthService.register(userData)`. -/
def AuthService.register (env : ProcessEnv) (lib : Lib) (now : Nat) (db : Prisma)
    (userData : UserData) : Run AuthResult :=
  match db.findUniqueByEmail userData.email with
  | .error e => { result := .error e, db := db, trace := [.findUnique] }
  | .ok (some _) =>
    { result := .error (AppError "Email already in use" 409), db := db,
      trace := [.findUnique] }
  | .ok none =>
    let hashedPassword := lib.bcryptHash userData.password 12
    let t₁ : List Effect := [.findUnique, .bcryptHash userData.password 12]
    match db.create userData.email hashedPassword userData.firstName userData.lastName now with
    | .error e => { result := .error e, db := db, trace := t₁ }
    | .ok (row, db₁) =>
      let user := row.select registerSelect
      let t₂ := t₁ ++ [.create userData.email, .sendWelcomeEmail user.email]
      let t₃ :=
        match EmailService.sendWelcomeEmail env lib user with
        | .ok _ => t₂
        | .error error => t₂ ++ [.logWarn ("Failed to send welcome email: " ++ error.message)]
      match AuthService.generateToken env lib now row.id with
      | .error e => { result := .error e, db := db₁, trace := t₃ ++ [.jwtSign row.id] }
      | .ok token =>
        { result := .ok { user := user, token := token }, db := db₁,
          trace := t₃ ++ [.jwtSign row.id] }

/-- `AuthService.login(email, password)`. The row is fetched without `select`;
the returned user is that object without its `password` property. -/
def AuthService.login (env : ProcessEnv) (lib : Lib) (now : Nat) (db : Prisma)
    (email password : String) : Run AuthResult :=
  match db.findUniqueByEmail email with
  | .error e => { result := .error e, db := db, trace := [.findUnique] }
  | .ok none =>
    { result := .error (AppError "Invalid email or password" 401), db := db,
      trace := [.findUnique] }
  | .ok (some user) =>
    if !lib.bcryptCompare password user.password then
      { result := .error (AppError "Invalid email or password" 401), db := db,
        trace := [.findUnique, .bcryptCompare] }
    else if !user.isActive then
      { result := .error (AppError "Your account has been deactivated" 403), db := db,
        trace := [.findUnique, .bcryptCompare] }
    else
      match AuthService.generateToken env lib now user.id with
      | .error e =>
        { result := .error e, db := db, trace := [.findUnique, .bcryptCompare, .jwtSign user.id] }
      | .ok token =>
        { result := .ok { user := { user.select allFields with password := none },
                          token := token },
          db := db, trace := [.findUnique, .bcryptCompare, .jwtSign user.id] }

/-! ## `src/utils/ApiResponse.js` -/

/-- The `errors` detail of an error body: the object `sendErrorDev` builds
(`status`, `error`, `stack`) or the field list `validate` builds. -/
inductive ErrorDetails where
  | dev (status : Option String) (error : JsError) (stack : Option String)
  | fields (list : List (String × String))
deriving DecidableEq, Repr

/-- The JSON body of an error response; `errors` is present only when given. -/
structure ErrorBody where
  success : Bool
  code : Nat
  message : String
  errors : Option ErrorDetails
deriving DecidableEq, Repr

/-- A response as sent by `res.status(code).json(body)`. -/
structure Response where
  status : Nat
  body : ErrorBody
deriving DecidableEq, Repr

/-- `ApiResponse.error(res, code = 500, message = 'Internal Server Error',
errors = null)`: an undefined argument takes its default. -/
def ApiResponse.error (code : Option Nat) (message : Option String)
    (errors : Option ErrorDetails) : Response :=
  let code := code.getD 500
  let message := message.getD "Internal Server Error"
  { status := code,
    body := { success := false, code := code, message := message, errors := errors } }

/-! ## `src/middlewares/errorHandler.js` -/

/-- The expression `statusCode || 500`: `undefined` and `0` are falsy. -/
def orElseNat (a : Option Nat) (b : Nat) : Nat :=
  match a with
  | some n => if n = 0 then b else n
  | none => b

/-- `handlePrismaValidationError(error)`: newlines become spaces. -/
def handlePrismaValidationError (error : JsError) : JsError :=
  AppError ⟨error.message.data.map (fun c => if c = '\n' then ' ' else c)⟩ 400

/-- `handlePrismaKnownError(error)`. -/
def handlePrismaKnownError (error : JsError) : JsError :=
  if error.code = some "P2002" then
    let field := orElseStr (error.metaTarget.bind List.head?) "field"
    AppError (field ++ " already exists") 409
  else if error.code = some "P2025" then
    AppError "Resource not found" 404
  else
    AppError "Database operation failed" 400

/-- `handleJWTError()`. -/
def handleJWTError : JsError := AppError "Invalid token. Please login again" 401

/-- `handleJWTExpiredError()`. -/
def handleJWTExpiredError : JsError :=
  AppError "Your token has expired. Please login again" 401

/-- `sendErrorDev(err, res)`. -/
def sendErrorDev (err : JsError) : Response :=
  ApiResponse.error (some (orElseNat err.statusCode 500)) (some err.message)
    (some (.dev err.status err err.stack))

/-- `sendErrorProd(err, res)`. -/
def sendErrorProd (err : JsError) : Response :=
  if err.isOperational then
    ApiResponse.error err.statusCode (some err.message) none
  else
    ApiResponse.error (some 500) (some "Something went wrong!") none

/-- The object `{ ...err }`: the own enumerable properties of `err`. The `stack`
of an error is not enumerable, so the copy has none; neither is `message`, which
`errorHandler` assigns next. The copy's `name` is never read. -/
def spreadCopy (err : JsError) : JsError :=
  { err with stack := none }

/-- `errorHandler(err, req, res, next)`: the response it sends. -/
def errorHandler (env : ProcessEnv) (err : JsError) : Response :=
  let error₀ : JsError :=
    { spreadCopy err with
      message := err.message
      statusCode := some (orElseNat err.statusCode 500) }
  let error₁ :=
    if err.name = "PrismaClientValidationError" then handlePrismaValidationError err
    else error₀
  let error₂ :=
    if err.name = "PrismaClientKnownRequestError" then handlePrismaKnownError err
    else error₁
  let error₃ := if err.name = "JsonWebTokenError" then handleJWTError else error₂
  let error₄ := if err.name = "TokenExpiredError" then handleJWTExpiredError else error₃
  if env.NODE_ENV = some "development" then sendErrorDev error₄
  else sendErrorProd error₄

/-! ## `src/middlewares/authMiddleware.js` -/

/-- The parts of an Express request the middlewares read or write. -/
structure Request where
  authorization : Option String
  user : Option UserObj
  originalUrl : String
  ip : String
deriving DecidableEq, Repr

/-- What a middleware did: the request as it left it, its calls of `next` in
order (`none` for `next()`, `some e` for `next(e)`), and the responses it sent. -/
structure MwOutcome where
  req : Request
  nextCalls : List (Option JsError)
  sent : List Response
deriving DecidableEq, Repr

/-- `String.prototype.split` on a one-character separator. -/
def jsSplit (sep : Char) : List Char → List (List Char)
  | [] => [[]]
  | c :: cs =>
    if c = sep then [] :: jsSplit sep cs
    else
      match jsSplit sep cs with
      | [] => [[c]]
      | w :: ws => (c :: w) :: ws

/-- `s.split(' ')[i]`. -/
def splitAt? (s : String) (sep : Char) (i : Nat) : Option String :=
  ((jsSplit sep s.data)[i]?).map String.mk

/-- `s.startsWith(p)`. -/
def startsWith (s p : String) : Bool := p.data.isPrefixOf s.data

/-- JavaScript truthiness of a possibly undefined boolean. -/
def truthyBool : Option Bool → Bool
  | some b => b
  | none => false

/-- The variable `token` after the header has been read, as `protect` computes
it (lines 17-21): `if (authorization && authorization.startsWith('Bearer'))
token = authorization.split(' ')[1]`. -/
def headerToken (authorization : Option String) : Option String :=
  match truthyStr authorization with
  | some authorization =>
    if startsWith authorization "Bearer" then splitAt? authorization ' ' 1 else none
  | none => none

/-- The token the middlewares go on with, if any: `token` when it is truthy. -/
def bearerToken (authorization : Option String) : Option String :=
  truthyStr (headerToken authorization)

/-- `catchAsync(fn)`: a rejection of `fn` is handed to `next`. -/
def catchAsync (fn : Request → Except JsError MwOutcome) (req : Request) : MwOutcome :=
  match fn req with
  | .ok o => o
  | .error e => { req := req, nextCalls := [some e], sent := [] }

/-- The columns `protect` selects. -/
def protectSelect : List Field :=
  [.id, .email, .firstName, .lastName, .role, .isActive, .isVerified]

/-- The `async` function wrapped by `exports.protect`. -/
def protectFn (env : ProcessEnv) (lib : Lib) (now : Nat) (db : Prisma) (req : Request) :
    Except JsError MwOutcome :=
  let token : Option String := headerToken req.authorization
  match truthyStr token with
  | none =>
    .ok { req := req, sent := [], nextCalls :=
      [some (AppError "You are not logged in. Please login to access this resource" 401)] }
  | some token =>
    match jwtVerify lib.jwt token env.JWT_SECRET now with
    | .error error => .ok { req := req, nextCalls := [some error], sent := [] }
    | .ok decoded =>
      match db.findUniqueById decoded.id with
      | .error e => .error e
      | .ok none =>
        .ok { req := req, sent := [], nextCalls :=
          [some (AppError "The user belonging to this token no longer exists" 401)] }
      | .ok (some row) =>
        let user := row.select protectSelect
        if !truthyBool user.isActive then
          .ok { req := req, sent := [], nextCalls :=
            [some (AppError "Your account has been deactivated. Please contact support" 403)] }
        else
          .ok { req := { req with user := some user }, nextCalls := [none], sent := [] }

/-- `exports.protect`. -/
def protect (env : ProcessEnv) (lib : Lib) (now : Nat) (db : Prisma) (req : Request) :
    MwOutcome :=
  catchAsync (protectFn env lib now db) req

/-- `roles.includes(role)` for a possibly undefined `role`. -/
def includes (roles : List String) (role : Option String) : Bool :=
  match role with
  | some r => roles.contains r
  | none => false

/-- `exports.restrictTo(...roles)`: the middleware it returns. Reading
`req.user.role` throws when `req.user` is undefined. -/
def restrictTo (roles : List String) (req : Request) : Except JsError MwOutcome :=
  match req.user with
  | none =>
    .error (plainError "TypeError" "Cannot read properties of undefined (reading 'role')")
  | some user =>
    if !includes roles user.role then
      .ok { req := req, sent := [], nextCalls :=
        [some (AppError "You do not have permission to perform this action" 403)] }
    else
      .ok { req := req, nextCalls := [none], sent := [] }

/-- The columns `optionalAuth` selects. -/
def optionalAuthSelect : List Field :=
  [.id, .email, .firstName, .lastName, .role]

/-- A call a middleware makes to a library: `jwt.verify(token, secret)` or
`prisma.user.findUnique({ where: { id } })`. -/
inductive LibCall where
  | jwtVerify (token : String)
  | findUnique (id : UserId)
deriving DecidableEq, Repr

/-- The `async` function wrapped by `exports.optionalAuth` (lines 81-112), with
the library calls it makes, in order. The header is read by the function's own
lines 82-86. -/
def optionalAuthRun (env : ProcessEnv) (lib : Lib) (now : Nat) (db : Prisma) (req : Request) :
    Except JsError MwOutcome × List LibCall :=
  let token : Option String :=
    match truthyStr req.authorization with
    | some authorization =>
      if startsWith authorization "Bearer" then splitAt? authorization ' ' 1 else none
    | none => none
  match truthyStr token with
  | none => (.ok { req := req, nextCalls := [none], sent := [] }, [])
  | some token =>
    let tried : Request × List LibCall :=
      match jwtVerify lib.jwt token env.JWT_SECRET now with
      | .error _ => (req, [.jwtVerify token])
      | .ok decoded =>
        match db.findUniqueById decoded.id with
        | .error _ => (req, [.jwtVerify token, .findUnique decoded.id])
        | .ok none => (req, [.jwtVerify token, .findUnique decoded.id])
        | .ok (some row) =>
          let user := row.select optionalAuthSelect
          (if truthyBool user.isActive then { req with user := some user } else req,
           [.jwtVerify token, .findUnique decoded.id])
    (.ok { req := tried.1, nextCalls := [none], sent := [] }, tried.2)

/-- What the `async` function wrapped by `exports.optionalAuth` resolves to. -/
def optionalAuthFn (env : ProcessEnv) (lib : Lib) (now : Nat) (db : Prisma) (req : Request) :
    Except JsError MwOutcome :=
  (optionalAuthRun env lib now db req).1

/-- `exports.optionalAuth`. -/
def optionalAuth (env : ProcessEnv) (lib : Lib) (now : Nat) (db : Prisma) (req : Request) :
    MwOutcome :=
  catchAsync (optionalAuthFn env lib now db) req

/-- Express hands every `next(err)` to the global error handler registered last
in `app.js`: the responses that follow from a middleware's outcome. -/
def respond (env : ProcessEnv) (o : MwOutcome) : List Response :=
  o.sent ++ o.nextCalls.filterMap (fun c => c.map (errorHandler env))

/-- The row `register` creates in a store. -/
def createdRow (lib : Lib) (now : Nat) (s : Store) (data : UserData) : User :=
  { id := s.nextId, email := data.email, password := lib.bcryptHash data.password 12,
    firstName := data.firstName, lastName := data.lastName, role := "USER",
    isActive := true, isVerified := false, createdAt := now, updatedAt := now }

/-! ## A concrete library instance

Used to run the definitions on concrete inputs. Its token is the secret, then
the three claims in unary: `secret.iii.aa.eeee` carries `id = 3`, `iat = 2`,
`exp = 4`. -/

/-- Removes a leading copy of the first list from the second, if there is one. -/
def dropLeading : List Char → List Char → Option (List Char)
  | [], t => some t
  | _ :: _, [] => none
  | c :: cs, d :: t => if c = d then dropLeading cs t else none

/-- Counts the leading occurrences of `c` and returns the rest. -/
def unary (c : Char) : List Char → Nat × List Char
  | [] => (0, [])
  | d :: t => if d = c then ((unary c t).1 + 1, (unary c t).2) else (0, d :: t)

/-- Serialisation of the demo codec. -/
def demoEncode (secret : String) (p : JwtPayload) : String :=
  ⟨secret.data ++ '.' :: (List.replicate p.id 'i' ++ '.' ::
    (List.replicate p.iat 'a' ++ '.' :: List.replicate p.exp 'e'))⟩

/-- Parsing of the demo codec: anything not produced by `demoEncode` under the
same secret is rejected. -/
def demoDecode (secret : String) (token : String) : Except String JwtPayload :=
  match dropLeading (secret.data ++ ['.']) token.data with
  | none => .error "invalid signature"
  | some r =>
    match (unary 'i' r).2 with
    | '.' :: r₁ =>
      match (unary 'a' r₁).2 with
      | '.' :: r₂ =>
        match (unary 'e' r₂).2 with
        | [] => .ok { id := (unary 'i' r).1, iat := (unary 'a' r₁).1, exp := (unary 'e' r₂).1 }
        | _ :: _ => .error "jwt malformed"
      | _ => .error "jwt malformed"
    | _ => .error "jwt malformed"

/-- Durations the demo codec reads. -/
def demoTimespan (t : String) : Option Nat :=
  if t = "7d" then some 604800
  else if t = "1h" then some 3600
  else if t = "5s" then some 5
  else none

/-- The demo codec as a jsonwebtoken instance: a token it encodes decodes, under
the same secret, to its payload. -/
def demoJwt : JwtLib :=
  { encode := demoEncode, decode := demoDecode, timespan := demoTimespan,
    decode_encode := by
      intro secret p
      have hdrop : ∀ l r : List Char, dropLeading l (l ++ r) = some r := by
        intro l r
        induction l with
        | nil => cases r <;> rfl
        | cons c cs ih => simp [dropLeading, ih]
      have hunary : ∀ (c : Char) (n : Nat) (r : List Char), r.head? ≠ some c →
          unary c (List.replicate n c ++ r) = (n, r) := by
        intro c n r h
        induction n with
        | zero =>
          cases r with
          | nil => rfl
          | cons d t =>
            have hd : d ≠ c := by simpa using h
            simp [unary, hd]
        | succ n ih => simp [List.replicate_succ, unary, ih]
      have h₀ : dropLeading (secret.data ++ ['.']) (demoEncode secret p).data
          = some (List.replicate p.id 'i' ++ '.' ::
              (List.replicate p.iat 'a' ++ '.' :: List.replicate p.exp 'e')) := by
        have := hdrop (secret.data ++ ['.'])
          (List.replicate p.id 'i' ++ '.' ::
              (List.replicate p.iat 'a' ++ '.' :: List.replicate p.exp 'e'))
        simpa [demoEncode] using this
      have h₁ := hunary 'i' p.id
        ('.' :: (List.replicate p.iat 'a' ++ '.' :: List.replicate p.exp 'e')) (by simp)
      have h₂ := hunary 'a' p.iat ('.' :: List.replicate p.exp 'e') (by simp)
      have h₃ := hunary 'e' p.exp [] (by simp)
      simp only [List.append_nil] at h₃
      simp only [demoDecode, h₀, h₁, h₂, h₃] }

/-- The demo libraries: a transparent hash, the demo codec, a mailer that works. -/
def demoLib : Lib :=
  { bcryptHash := fun password _ => "$2b$" ++ password
    bcryptCompare := fun password hash => hash == "$2b$" ++ password
    jwt := demoJwt
    sendMail := fun _ => .ok "message-1" }

/-- The demo environment: a secret, a five-second expiry, production mode. -/
def demoEnv : ProcessEnv :=
  { NODE_ENV := some "production", JWT_SECRET := some "k", JWT_EXPIRES_IN := some "5s",
    RATE_LIMIT_WINDOW_MS := none, RATE_LIMIT_MAX_REQUESTS := none,
    APP_NAME := some "App", EMAIL_FROM := none, EMAIL_USER := none }

/-- A row of the demo store. -/
def alice : User :=
  { id := 1, email := "a@x.io", password := "$2b$pw", firstName := "A", lastName := "L",
    role := "USER", isActive := true, isVerified := false, createdAt := 0, updatedAt := 0 }

/-- The demo store: one active user. -/
def demoStore : Store := { users := [alice], nextId := 2 }

/-- The demo store after the stored identity has been deactivated. -/
def deactivatedStore : Store :=
  { users := [{ alice with isActive := false }], nextId := 2 }

/-- A request to a protected route carrying the given `Authorization` header. -/
def requestWith (authorization : Option String) : Request :=
  { authorization := authorization, user := none, originalUrl := "/api/v1/auth/me",
    ip := "10.0.0.1" }

/-- The names `errorHandler` classifies specially. -/
def classifiedNames : List String :=
  ["PrismaClientValidationError", "PrismaClientKnownRequestError",
   "JsonWebTokenError", "TokenExpiredError"]

/-- The demo environment in development mode. -/
def devEnv : ProcessEnv := { demoEnv with NODE_ENV := some "development" }

/-- A Prisma known-request error with the given code and `meta.target`. -/
def prismaKnownError (code : String) (target : Option (List String)) : JsError :=
  { name := "PrismaClientKnownRequestError", message := "Invalid invocation",
    statusCode := none, status := none, isOperational := false,
    code := some code, metaTarget := target,
    stack := some "PrismaClientKnownRequestError" }

/-! ## `src/app.js` and `src/routes/authRoutes.js` -/

/-- The handlers the application registers on a method and a path. -/
inductive Endpoint where
  | status | register | login | getCurrentUser | logout
deriving DecidableEq, Repr

/-- A registered route. -/
structure Route where
  method : String
  path : String
  endpoint : Endpoint
deriving DecidableEq, Repr

/-- The routes of `app.js` and, mounted on `/api/v1/auth`, of `authRoutes.js`,
in the order of registration. -/
def routes : List Route :=
  [{ method := "GET", path := "/api/status", endpoint := .status },
   { method := "POST", path := "/api/v1/auth/register", endpoint := .register },
   { method := "POST", path := "/api/v1/auth/login", endpoint := .login },
   { method := "GET", path := "/api/v1/auth/me", endpoint := .getCurrentUser },
   { method := "POST", path := "/api/v1/auth/logout", endpoint := .logout }]

/-- The handler of `app.all('*', ...)`, registered after every route. -/
def notFoundHandler (req : Request) : MwOutcome :=
  { req := req, sent := [], nextCalls :=
    [some (AppError ("Cannot find " ++ req.originalUrl ++ " on this server") 404)] }

/-- A plain matcher: same method, same path. -/
def exactMatch (r : Route) (method url : String) : Bool :=
  r.method == method && r.path == url

/-! ## `src/middlewares/rateLimiter.js` -/

/-- The options the module gives to `rateLimit`, with the message of the body
its `handler` sends. -/
structure RateLimitOptions where
  windowMs : Int
  max : Int
  skipSuccessfulRequests : Bool
  message : String
deriving DecidableEq, Repr

/-- The decimal digits at the head of a list, as a number; `acc` is the value
read so far (`none` before the first digit). -/
def parseDigits : List Char → Option Nat → Option Nat
  | [], acc => acc
  | c :: cs, acc =>
    if c.isDigit then parseDigits cs (some (acc.getD 0 * 10 + (c.toNat - 48))) else acc

/-- The white space `parseInt` skips: the white space and line terminator code
points of ECMAScript. -/
def isJsWhiteSpace (c : Char) : Bool :=
  let n := c.toNat
  n = 0x09 || n = 0x0A || n = 0x0B || n = 0x0C || n = 0x0D || n = 0x20 || n = 0xA0
    || n = 0x1680 || (decide (0x2000 ≤ n) && decide (n ≤ 0x200A)) || n = 0x2028
    || n = 0x2029 || n = 0x202F || n = 0x205F || n = 0x3000 || n = 0xFEFF

/-- The double nearest to a natural number, ties to even: a JavaScript number
keeps 53 significant bits. Numbers beyond the largest double, which JavaScript
turns into `Infinity`, are rounded the same way here. -/
def roundToDouble (n : Nat) : Nat :=
  if n < 2 ^ 53 then n
  else
    let k := Nat.log2 n - 52
    let q := n / 2 ^ k
    let r := n % 2 ^ k
    let q₁ := if 2 ^ (k - 1) < r ∨ (r = 2 ^ (k - 1) ∧ q % 2 = 1) then q + 1 else q
    q₁ * 2 ^ k

/-- `parseInt(s, 10)`: leading white space, an optional sign, then digits up to
the first other character, as the nearest double; `none` is `NaN`. -/
def parseInt (s : Option String) : Option Int :=
  match s with
  | none => none
  | some s =>
    match s.data.dropWhile isJsWhiteSpace with
    | '-' :: r => (parseDigits r none).map (fun n => -(roundToDouble n : Int))
    | '+' :: r => (parseDigits r none).map (fun n => (roundToDouble n : Int))
    | cs => (parseDigits cs none).map (fun n => (roundToDouble n : Int))

/-- The expression `n || d` on a number: `NaN` and `0` are falsy. -/
def orElseInt (n : Option Int) (d : Int) : Int :=
  match n with
  | some v => if v = 0 then d else v
  | none => d

/-- The options of `apiLimiter`, as the module computes them under `env`. -/
def apiLimiterOptions (env : ProcessEnv) : RateLimitOptions :=
  { windowMs := orElseInt (parseInt env.RATE_LIMIT_WINDOW_MS) (15 * 60 * 1000)
    max := orElseInt (parseInt env.RATE_LIMIT_MAX_REQUESTS) 100
    skipSuccessfulRequests := false
    message := "Too many requests from this IP, please try again later" }

/-- The options of `authLimiter`, as the module computes them under `env`: the
object literal does not read `process.env`. -/
def authLimiterOptions (_env : ProcessEnv) : RateLimitOptions :=
  { windowMs := 15 * 60 * 1000
    max := 5
    skipSuccessfulRequests := true
    message := "Too many authentication attempts, please try again after 15  minutes" }

/-- The counter express-rate-limit keeps for one key. -/
structure Bucket where
  totalHits : Nat
  resetTime : Int
deriving DecidableEq, Repr

/-- The memory store of one limiter: a counter per source address. -/
abbrev Buckets := String → Option Bucket

/-- The store with the counter of one key replaced. -/
def Buckets.set (b : Buckets) (key : String) (v : Bucket) : Buckets :=
  fun k => if k = key then some v else b k

/-- The store's `increment(key)` at time `now` (milliseconds): a counter whose
window has elapsed, or a missing one, starts again at one hit with a window of
`windowMs` from `now`. -/
def increment (opts : RateLimitOptions) (b : Buckets) (key : String) (now : Int) : Bucket :=
  match b key with
  | some bk =>
    if bk.resetTime ≤ now then { totalHits := 1, resetTime := now + opts.windowMs }
    else { totalHits := bk.totalHits + 1, resetTime := bk.resetTime }
  | none => { totalHits := 1, resetTime := now + opts.windowMs }

/-- The store's `decrement(key)`. -/
def decrement (b : Buckets) (key : String) : Buckets :=
  match b key with
  | some bk => b.set key { bk with totalHits := bk.totalHits - 1 }
  | none => b

/-- The hits counted for a key in its current window. -/
def hits (b : Buckets) (key : String) (now : Int) : Nat :=
  match b key with
  | some bk => if bk.resetTime ≤ now then 0 else bk.totalHits
  | none => 0

/-- What a limiter did with a request: it answered 429 itself, or passed the
request on and the rest of the chain ended the response with a status. -/
inductive Limited where
  | blocked (r : Response)
  | passed (status : Nat)
deriving DecidableEq, Repr

/-- The middleware `rateLimit(options)` of express-rate-limit, keyed by
`req.ip`: it counts the request; over `max`, the handler of the module answers
429 and the chain stops; otherwise `rest`, the rest of the chain, runs and ends
the response with a status, and under `skipSuccessfulRequests` a status below
400 takes the hit back. -/
def rateLimit (opts : RateLimitOptions) (b : Buckets) (req : Request) (now : Int)
    (rest : Request → Nat) : Limited × Buckets :=
  let bk := increment opts b req.ip now
  let b₁ := b.set req.ip bk
  if (bk.totalHits : Int) > opts.max then
    (.blocked { status := 429,
                body := { success := false, code := 429, message := opts.message,
                          errors := none } }, b₁)
  else
    let status := rest req
    if opts.skipSuccessfulRequests && decide (status < 400) then
      (.passed status, decrement b₁ req.ip)
    else (.passed status, b₁)

/-- `authLimiter`, in front of `POST /register` and `POST /login`. -/
def authLimiter (env : ProcessEnv) (b : Buckets) (req : Request) (now : Int)
    (rest : Request → Nat) : Limited × Buckets :=
  rateLimit (authLimiterOptions env) b req now rest

/-! ## `src/app.js`: the chain of a request -/

/-- `s.toLowerCase()`, on ASCII letters. -/
def toLowerCase (s : String) : String := ⟨s.data.map Char.toLower⟩

/-- The path of a request URL: what precedes the query string. -/
def pathname (url : String) : String := ⟨url.data.takeWhile (fun c => c ≠ '?')⟩

/-- The value of a hexadecimal digit. -/
def hexValue (c : Char) : Option Nat :=
  if '0' ≤ c ∧ c ≤ '9' then some (c.toNat - 48)
  else if 'a' ≤ c ∧ c ≤ 'f' then some (c.toNat - 87)
  else if 'A' ≤ c ∧ c ≤ 'F' then some (c.toNat - 55)
  else none

/-- The octet of an escape `%XX` at the head of a list, and what follows it. -/
def readOctet : List Char → Option (Nat × List Char)
  | '%' :: x :: y :: rest =>
    match hexValue x, hexValue y with
    | some hi, some lo => some (16 * hi + lo, rest)
    | _, _ => none
  | _ => none

/-- Reads `n` escaped continuation octets (`10xxxxxx`) after the bits `acc` of a
leading octet: the code point they encode, and what follows them. -/
def readContinuations : Nat → Nat → List Char → Option (Nat × List Char)
  | 0, acc, cs => some (acc, cs)
  | n + 1, acc, cs =>
    match readOctet cs with
    | some (o, rest) =>
      if 0x80 ≤ o ∧ o < 0xC0 then readContinuations n (acc * 64 + (o - 0x80)) rest else none
    | none => none

/-- Whether `decodeURIComponent` returns on a text rather than throwing a
`URIError`: every `%` starts an escape `%XX`, and the escaped octets are the
UTF-8 encoding of code points. `fuel` bounds the characters still to read. -/
def uriDecodesFrom : Nat → List Char → Bool
  | 0, cs => cs.isEmpty
  | _ + 1, [] => true
  | fuel + 1, c :: cs =>
    if c = '%' then
      match readOctet (c :: cs) with
      | none => false
      | some (o, rest) =>
        if o < 0x80 then uriDecodesFrom fuel rest
        else if o < 0xC0 then false
        else if o < 0xE0 then
          match readContinuations 1 (o - 0xC0) rest with
          | some (cp, rest₂) => decide (0x80 ≤ cp) && uriDecodesFrom fuel rest₂
          | none => false
        else if o < 0xF0 then
          match readContinuations 2 (o - 0xE0) rest with
          | some (cp, rest₂) =>
            decide (0x800 ≤ cp) && !(decide (0xD800 ≤ cp) && decide (cp ≤ 0xDFFF))
              && uriDecodesFrom fuel rest₂
          | none => false
        else if o < 0xF8 then
          match readContinuations 3 (o - 0xF0) rest with
          | some (cp, rest₂) =>
            decide (0x10000 ≤ cp) && decide (cp ≤ 0x10FFFF) && uriDecodesFrom fuel rest₂
          | none => false
        else false
    else uriDecodesFrom fuel cs

/-- Whether `decodeURIComponent(s)` returns. -/
def uriDecodes (s : String) : Bool := uriDecodesFrom s.data.length s.data

/-- The error Express raises when the path matched by a `*` route does not
decode: a `URIError` with `status` and `statusCode` 400. -/
def decodeParamError (path : String) : JsError :=
  { name := "URIError", message := "Failed to decode param '" ++ path ++ "'",
    statusCode := some 400, status := some "400", isOperational := false, code := none,
    metaTarget := none,
    stack := some ("URIError: Failed to decode param '" ++ path ++ "'") }

/-- Whether a URL is under the mount path `/api` of `app.use('/api', ...)`: its
path is `/api` or starts with `/api/`, in any letter case. -/
def underApi (url : String) : Bool :=
  toLowerCase (pathname url) == "/api" || startsWith (toLowerCase (pathname url)) "/api/"

/-- How the application answers a request: `cors` ends a preflight with 204 and
no body; or error bodies are sent (by a limiter or by the error handler); or a
registered handler takes the request. -/
inductive Answer where
  | preflight
  | sent (responses : List Response)
  | handled (endpoint : Endpoint)
deriving DecidableEq, Repr

/-- The chain of `app.js` for one request, in the order of registration. `cors`
answers every `OPTIONS` request itself. The body parsers hand `bodyError`, the
error they raise on the body, if any, to the error handler. Under `/api` the
request is counted by `apiLimiter`, which may answer 429 (the status the chain
ends with does not matter to it: it skips no request). Then the first registered
route that matches takes the request, `isMatch` being Express's test of a route
against a method and a URL. With none, the `*` route is tried: Express decodes
the path it matched, a failure goes to the error handler, and otherwise the
handler of lines 69-72 calls `next` with the 404 error. -/
def app (env : ProcessEnv) (isMatch : Route → String → String → Bool) (b : Buckets)
    (now : Int) (method : String) (bodyError : Option JsError) (req : Request) :
    Answer × Buckets :=
  if method = "OPTIONS" then (.preflight, b)
  else
    match bodyError with
    | some e => (.sent [errorHandler env e], b)
    | none =>
      let routed : Answer :=
        match routes.find? (fun r => isMatch r method req.originalUrl) with
        | some r => .handled r.endpoint
        | none =>
          if uriDecodes (pathname req.originalUrl) then
            .sent (respond env (notFoundHandler req))
          else .sent [errorHandler env (decodeParamError (pathname req.originalUrl))]
      if underApi req.originalUrl then
        match rateLimit (apiLimiterOptions env) b req now (fun _ => 0) with
        | (.blocked r, b₁) => (.sent [r], b₁)
        | (.passed _, b₁) => (routed, b₁)
      else (routed, b)

/-! ## `src/middlewares/validate.js` and `src/controllers/authController.js` -/

/-- An error of express-validator's `validationResult(req)`. -/
structure ValidationError where
  path : Option String
  param : Option String
  msg : String
deriving DecidableEq, Repr

/-- `validate(req, res, next)`: the 400 response it sends, or `none` for
`next()`. -/
def validate (errors : List ValidationError) : Option Response :=
  if errors.isEmpty then none
  else
    some (ApiResponse.error (some 400) (some "Validation failed")
      (some (.fields (errors.map fun err =>
        (match truthyStr err.path with
          | some p => p
          | none => interp err.param, err.msg)))))

/-- The status `POST /login` ends with once past `authLimiter`: `validate` on
the errors the validation chain found, then `authController.login`, whose
rejection goes to the error handler. `nowMs` is the time in milliseconds. -/
def loginStatus (env : ProcessEnv) (lib : Lib) (db : Prisma) (nowMs : Int)
    (errors : List ValidationError) (email password : String) : Nat :=
  match validate errors with
  | some r => r.status
  | none =>
    match (AuthService.login env lib (nowMs / 1000).toNat db email password).result with
    | .ok _ => 200
    | .error e => (errorHandler env e).status

/-- One attempt on `POST /login`: the time, the source address, the body. -/
structure LoginAttempt where
  nowMs : Int
  ip : String
  email : String
  password : String
deriving DecidableEq, Repr

/-- `POST /login` from `authLimiter` on, for a body that passes validation. -/
def postLogin (env : ProcessEnv) (lib : Lib) (db : Prisma) (b : Buckets) (a : LoginAttempt) :
    Limited × Buckets :=
  authLimiter env b
    { authorization := none, user := none, originalUrl := "/api/v1/auth/login", ip := a.ip }
    a.nowMs (fun _ => loginStatus env lib db a.nowMs [] a.email a.password)

/-- A sequence of attempts on `POST /login`, one after the other: what each got,
and the limiter's store at the end. -/
def postLogins (env : ProcessEnv) (lib : Lib) (db : Prisma) :
    Buckets → List LoginAttempt → List Limited × Buckets
  | b, [] => ([], b)
  | b, a :: as =>
    let r := postLogin env lib db b a
    let rs := postLogins env lib db r.2 as
    (r.1 :: rs.1, rs.2)

/-- The limiter's 429 response. -/
def tooManyAuth : Response :=
  { status := 429,
    body := { success := false, code := 429,
              message := "Too many authentication attempts, please try again after 15  minutes",
              errors := none } }

/-- An attempt on `POST /login` for the demo identity from one address. -/
def attempt (nowMs : Int) (password : String) : LoginAttempt :=
  { nowMs := nowMs, ip := "10.0.0.1", email := "a@x.io", password := password }

/-- Five attempts with a wrong password, one second apart. -/
def fiveFailures : List LoginAttempt :=
  [attempt 0 "x", attempt 1000 "x", attempt 2000 "x", attempt 3000 "x", attempt 4000 "x"]

/-- The empty store of a limiter. -/
def noBuckets : Buckets := fun _ => none

/-! ## `src/middlewares/uploadMiddleware.js` -/

/-- The state of the backward scan of Node's `path.extname` (POSIX): the index
of the last dot, the start of the last path component, the end of that
component, whether only trailing slashes have been seen, what precedes the dot
(`0` nothing yet, `1` a dot, `-1` another character), and whether the scan has
stopped at a separator. -/
structure ExtState where
  startDot : Option Nat
  startPart : Nat
  endPos : Option Nat
  matchedSlash : Bool
  preDotState : Int
  stopped : Bool
deriving DecidableEq, Repr

/-- One step of the scan of `path.extname`, on the character at index `i`. -/
def extStep (i : Nat) (c : Char) (st : ExtState) : ExtState :=
  if st.stopped then st
  else if c = '/' then
    if !st.matchedSlash then { st with startPart := i + 1, stopped := true } else st
  else
    let st₁ : ExtState :=
      if st.endPos = none then { st with matchedSlash := false, endPos := some (i + 1) }
      else st
    if c = '.' then
      if st₁.startDot = none then { st₁ with startDot := some i }
      else if st₁.preDotState ≠ 1 then { st₁ with preDotState := 1 }
      else st₁
    else if st₁.startDot ≠ none then { st₁ with preDotState := -1 }
    else st₁

/-- Node's `path.extname(path)` on a POSIX system: the last component's text
from its last dot on, or `''` when there is no such dot or the component starts
with it. -/
def extname (path : String) : String :=
  let st := path.data.enum.foldr (fun ic st => extStep ic.1 ic.2 st)
    { startDot := none, startPart := 0, endPos := none, matchedSlash := true,
      preDotState := 0, stopped := false }
  match st.startDot, st.endPos with
  | some startDot, some endPos =>
    if st.preDotState = 0 ∨
        (st.preDotState = 1 ∧ startDot = endPos - 1 ∧ startDot = st.startPart + 1) then ""
    else ⟨(path.data.take endPos).drop startDot⟩
  | _, _ => ""

/-- Whether the first list occurs in the second as a contiguous run. -/
def hasInfix (pat : List Char) : List Char → Bool
  | [] => pat.isEmpty
  | c :: cs => pat.isPrefixOf (c :: cs) || hasInfix pat cs

/-- `regex.test(s)` for a regular expression that is an alternation of literal
words without anchors: some word occurs somewhere in `s`. -/
def regexTest (words : List String) (s : String) : Bool :=
  words.any (fun w => hasInfix w.data s.data)

/-- The alternatives of `/jpeg|jpg|png|gif|pdf|doc|docx/`. -/
def allowedTypes : List String := ["jpeg", "jpg", "png", "gif", "pdf", "doc", "docx"]

/-- The properties of a multer file that `fileFilter` reads. -/
structure UploadedFile where
  originalname : String
  mimetype : String
deriving DecidableEq, Repr

/-- `fileFilter(req, file, cb)`: `.ok true` for `cb(null, true)`, the error for
`cb(error)`. -/
def fileFilter (file : UploadedFile) : Except JsError Bool :=
  let extnameOk := regexTest allowedTypes (toLowerCase (extname file.originalname))
  let mimetypeOk := regexTest allowedTypes file.mimetype
  if mimetypeOk && extnameOk then .ok true
  else
    .error (AppError
      "Invalid file type. Only JPEG, PNG, GIF, PDF, DOC, and DOCX files are allowed" 400)

/-- A mailer whose transport always fails. -/
def failingMail : MailOptions → Except JsError String :=
  fun _ => .error (plainError "Error" "connect ECONNREFUSED 127.0.0.1:587")

/-- The registration used on the demo store. -/
def bobData : UserData :=
  { email := "b@x.io", password := "pw", firstName := "B", lastName := "M" }

/-! ## Properties -/

/-- With no identity for the email, `login` throws the generic 401 error. -/
theorem login_unknown_email (env : ProcessEnv) (lib : Lib) (now : Nat) (db : Prisma)
    (email password : String) (h : db.findUniqueByEmail email = .ok none) :
    (AuthService.login env lib now db email password).result
      = .error (AppError "Invalid email or password" 401) := by
  simp [AuthService.login, h]

/-- With an identity found and a password that does not match its hash, `login`
throws the same generic 401 error. -/
theorem login_wrong_password (env : ProcessEnv) (lib : Lib) (now : Nat) (db : Prisma)
    (email password : String) (u : User) (h : db.findUniqueByEmail email = .ok (some u))
    (hpw : lib.bcryptCompare password u.password = false) :
    (AuthService.login env lib now db email password).result
      = .error (AppError "Invalid email or password" 401) := by
  simp [AuthService.login, h, hpw]

/-- C1: a login on an email that has no identity and a login on an existing
identity with a password that does not match its hash fail with the same error,
of status 401 and message `Invalid email or password`, whatever the two stores,
emails and passwords are. -/
theorem C1_login_failures_indistinguishable (env : ProcessEnv) (lib : Lib) (now₁ now₂ : Nat)
    (s₁ s₂ : Store) (email₁ password₁ email₂ password₂ : String) (u : User)
    (hnone : (Prisma.up s₁).findUniqueByEmail email₁ = .ok none)
    (hsome : (Prisma.up s₂).findUniqueByEmail email₂ = .ok (some u))
    (hpw : lib.bcryptCompare password₂ u.password = false) :
    (AuthService.login env lib now₁ (.up s₁) email₁ password₁).result
      = (AuthService.login env lib now₂ (.up s₂) email₂ password₂).result
    ∧ ∃ e, (AuthService.login env lib now₁ (.up s₁) email₁ password₁).result = .error e
        ∧ (AuthService.login env lib now₂ (.up s₂) email₂ password₂).result = .error e
        ∧ e.statusCode = some 401 ∧ e.message = "Invalid email or password" := by
  have h₁ := login_unknown_email env lib now₁ (.up s₁) email₁ password₁ hnone
  have h₂ := login_wrong_password env lib now₂ (.up s₂) email₂ password₂ u hsome hpw
  exact ⟨h₁.trans h₂.symm, _, h₁, h₂, rfl, rfl⟩

/-- C1 on the demo store: an unknown email against a wrong password for a known one. -/
theorem C1_login_failures_indistinguishable_witness :
    (AuthService.login demoEnv demoLib 7 (.up demoStore) "nobody@x.io" "pw").result
      = (AuthService.login demoEnv demoLib 9 (.up demoStore) "a@x.io" "wrong").result
    ∧ ∃ e, (AuthService.login demoEnv demoLib 7 (.up demoStore) "nobody@x.io" "pw").result
          = .error e
        ∧ (AuthService.login demoEnv demoLib 9 (.up demoStore) "a@x.io" "wrong").result
          = .error e
        ∧ e.statusCode = some 401 ∧ e.message = "Invalid email or password" :=
  C1_login_failures_indistinguishable demoEnv demoLib 7 9 demoStore demoStore
    "nobody@x.io" "pw" "a@x.io" "wrong" alice (by decide) (by decide) (by decide)

/-- A store that holds an identity with the email answers the lookup with one. -/
theorem findUniqueByEmail_of_mem (s : Store) (email : String)
    (h : ∃ u ∈ s.users, u.email = email) :
    ∃ v, (Prisma.up s).findUniqueByEmail email = .ok (some v) := by
  obtain ⟨u, hu, he⟩ := h
  cases hf : s.users.find? (fun u => u.email == email) with
  | none =>
    rw [List.find?_eq_none] at hf
    exact absurd (by simpa using he) (hf u hu)
  | some v => exact ⟨v, by simp [Prisma.findUniqueByEmail, hf]⟩

/-- With the email taken, `register` throws the 409 error right after the lookup. -/
theorem register_conflict (env : ProcessEnv) (lib : Lib) (now : Nat) (db : Prisma)
    (data : UserData) (v : User) (h : db.findUniqueByEmail data.email = .ok (some v)) :
    (AuthService.register env lib now db data).result
        = .error (AppError "Email already in use" 409)
      ∧ (AuthService.register env lib now db data).db = db
      ∧ (AuthService.register env lib now db data).trace = [.findUnique] := by
  simp [AuthService.register, h]

/-- A successful `register` found no identity with the email, appended exactly
one row, and returns that row's selection with a token minted for its id. -/
theorem register_ok (env : ProcessEnv) (lib : Lib) (now : Nat) (s : Store)
    (data : UserData) (r : AuthResult)
    (h : (AuthService.register env lib now (.up s) data).result = .ok r) :
    s.users.find? (fun u => u.email == data.email) = none
      ∧ (AuthService.register env lib now (.up s) data).db
          = .up { users := s.users ++ [createdRow lib now s data], nextId := s.nextId + 1 }
      ∧ r.user = (createdRow lib now s data).select registerSelect
      ∧ AuthService.generateToken env lib now (createdRow lib now s data).id = .ok r.token := by
  cases hf : s.users.find? (fun u => u.email == data.email) with
  | some v => simp [AuthService.register, Prisma.findUniqueByEmail, hf] at h
  | none =>
    have hany : (s.users.any fun u => u.email == data.email) = false := by
      rw [List.find?_eq_none] at hf
      simpa using hf
    cases hg : AuthService.generateToken env lib now s.nextId with
    | error e =>
      simp [AuthService.register, Prisma.findUniqueByEmail, hf, Prisma.create, hany, hg] at h
    | ok token =>
      simp [AuthService.register, Prisma.findUniqueByEmail, hf, Prisma.create, hany, hg] at h
      subst h
      simp [AuthService.register, Prisma.findUniqueByEmail, hf, Prisma.create, hany, hg,
        createdRow]

/-- C2: when the store already holds an identity with the email, `register`
fails with the 409 error `Email already in use` having done nothing but the
lookup (no hash, no record, no mail, no token), and leaves the store unchanged;
and after a successful `register` exactly one identity has that email and any
further `register` with it fails in that way. -/
theorem C2_register_conflict (env : ProcessEnv) (lib : Lib) (now : Nat) (s : Store)
    (data : UserData) :
    ((∃ u ∈ s.users, u.email = data.email) →
        (AuthService.register env lib now (.up s) data).result
            = .error (AppError "Email already in use" 409)
          ∧ (AuthService.register env lib now (.up s) data).db = .up s
          ∧ (AuthService.register env lib now (.up s) data).trace = [.findUnique])
    ∧ (∀ r, (AuthService.register env lib now (.up s) data).result = .ok r →
        ∃ s₁, (AuthService.register env lib now (.up s) data).db = .up s₁
          ∧ (s₁.users.filter (fun u => u.email == data.email)).length = 1
          ∧ ∀ (env₂ : ProcessEnv) (lib₂ : Lib) (now₂ : Nat) (data₂ : UserData),
              data₂.email = data.email →
              (AuthService.register env₂ lib₂ now₂ (.up s₁) data₂).result
                  = .error (AppError "Email already in use" 409)
                ∧ (AuthService.register env₂ lib₂ now₂ (.up s₁) data₂).db = .up s₁
                ∧ (AuthService.register env₂ lib₂ now₂ (.up s₁) data₂).trace
                    = [.findUnique]) := by
  refine ⟨fun hex => ?_, fun r hr => ?_⟩
  · obtain ⟨v, hv⟩ := findUniqueByEmail_of_mem s data.email hex
    exact register_conflict env lib now (.up s) data v hv
  · obtain ⟨hf, hdb, -, -⟩ := register_ok env lib now s data r hr
    refine ⟨_, hdb, ?_, fun env₂ lib₂ now₂ data₂ he => ?_⟩
    · have hnil : s.users.filter (fun u => u.email == data.email) = [] := by
        rw [List.find?_eq_none] at hf
        simpa [List.filter_eq_nil_iff] using hf
      simp [List.filter_append, hnil, createdRow]
    · obtain ⟨v, hv⟩ := findUniqueByEmail_of_mem
        { users := s.users ++ [createdRow lib now s data], nextId := s.nextId + 1 }
        data₂.email ⟨createdRow lib now s data, by simp, by simp [createdRow, he]⟩
      exact register_conflict env₂ lib₂ now₂ _ data₂ v hv

/-- C2 on the demo store: registering the email of the stored identity, and
registering a new email twice. -/
theorem C2_register_conflict_witness :
    ((AuthService.register demoEnv demoLib 5 (.up demoStore)
          { email := "a@x.io", password := "pw", firstName := "A", lastName := "L" }).result
        = .error (AppError "Email already in use" 409)
      ∧ (AuthService.register demoEnv demoLib 5 (.up demoStore)
          { email := "a@x.io", password := "pw", firstName := "A", lastName := "L" }).db
        = .up demoStore
      ∧ (AuthService.register demoEnv demoLib 5 (.up demoStore)
          { email := "a@x.io", password := "pw", firstName := "A", lastName := "L" }).trace
        = [.findUnique])
    ∧ ∃ s₁, (AuthService.register demoEnv demoLib 5 (.up demoStore)
          { email := "b@x.io", password := "pw", firstName := "B", lastName := "M" }).db
          = .up s₁
        ∧ (s₁.users.filter (fun u => u.email == "b@x.io")).length = 1
        ∧ (AuthService.register demoEnv demoLib 6 (.up s₁)
            { email := "b@x.io", password := "other", firstName := "B", lastName := "M" }).result
          = .error (AppError "Email already in use" 409) :=
  ⟨(C2_register_conflict demoEnv demoLib 5 demoStore
      { email := "a@x.io", password := "pw", firstName := "A", lastName := "L" }).1
      ⟨alice, by decide, by decide⟩,
   by
    obtain ⟨s₁, h₁, h₂, h₃⟩ := (C2_register_conflict demoEnv demoLib 5 demoStore
      { email := "b@x.io", password := "pw", firstName := "B", lastName := "M" }).2
      { user := (createdRow demoLib 5 demoStore
          { email := "b@x.io", password := "pw", firstName := "B", lastName := "M" }).select
            registerSelect,
        token := "k.ii.aaaaa.eeeeeeeeee" } (by decide)
    exact ⟨s₁, h₁, h₂, (h₃ demoEnv demoLib 6
      { email := "b@x.io", password := "other", firstName := "B", lastName := "M" } rfl).1⟩⟩

/-- A token minted by `generateToken` verifies, under the same environment and
before its expiry, to a payload carrying the id it was minted for. -/
theorem generateToken_verify (env : ProcessEnv) (lib : Lib) (now : Nat) (id : UserId)
    (token : String) (h : AuthService.generateToken env lib now id = .ok token) :
    ∃ p span, p.id = id ∧ p.iat = now
      ∧ lib.jwt.timespan (orElseStr env.JWT_EXPIRES_IN "7d") = some span
      ∧ p.exp = now + span
      ∧ ∀ t, t < p.exp → jwtVerify lib.jwt token env.JWT_SECRET t = .ok p := by
  unfold AuthService.generateToken jwtSign at h
  cases hs : truthyStr env.JWT_SECRET with
  | none => simp [hs] at h
  | some secret =>
    cases hspan : lib.jwt.timespan (orElseStr env.JWT_EXPIRES_IN "7d") with
    | none => simp [hs, hspan] at h
    | some span =>
      simp only [hs, hspan, Except.ok.injEq] at h
      refine ⟨{ id := id, iat := now, exp := now + span }, span, rfl, rfl, rfl, rfl, ?_⟩
      intro t ht
      have hlt : ¬ (t ≥ now + span) := by
        simp only [ge_iff_le, not_le]
        exact ht
      simp only [jwtVerify, hs, ← h, lib.jwt.decode_encode, hlt, if_false]

/-- With a signing secret set and a readable expiry, `generateToken` succeeds. -/
theorem generateToken_ok (env : ProcessEnv) (lib : Lib) (now : Nat) (id : UserId)
    (secret : String) (span : Nat) (hs : truthyStr env.JWT_SECRET = some secret)
    (ht : lib.jwt.timespan (orElseStr env.JWT_EXPIRES_IN "7d") = some span) :
    AuthService.generateToken env lib now id
      = .ok (lib.jwt.encode secret { id := id, iat := now, exp := now + span }) := by
  simp [AuthService.generateToken, jwtSign, hs, ht]

/-- With a signing secret set, a readable expiry and no identity holding the
email, `register` succeeds: it appends the created row and returns that row's
selection with the token signed for the row's id. -/
theorem register_succeeds (env : ProcessEnv) (lib : Lib) (now : Nat) (s : Store)
    (data : UserData) (secret : String) (span : Nat)
    (hs : truthyStr env.JWT_SECRET = some secret)
    (ht : lib.jwt.timespan (orElseStr env.JWT_EXPIRES_IN "7d") = some span)
    (hfree : ∀ u ∈ s.users, u.email ≠ data.email) :
    (AuthService.register env lib now (.up s) data).result
        = .ok { user := (createdRow lib now s data).select registerSelect,
                token := lib.jwt.encode secret
                  { id := s.nextId, iat := now, exp := now + span } }
      ∧ (AuthService.register env lib now (.up s) data).db
        = .up { users := s.users ++ [createdRow lib now s data], nextId := s.nextId + 1 } := by
  have hf : s.users.find? (fun u => u.email == data.email) = none := by
    rw [List.find?_eq_none]
    intro u hu
    simpa using hfree u hu
  have hany : (s.users.any fun u => u.email == data.email) = false := by
    rw [List.find?_eq_none] at hf
    simpa using hf
  have hg := generateToken_ok env lib now s.nextId secret span hs ht
  simp [AuthService.register, Prisma.findUniqueByEmail, hf, Prisma.create, hany, hg,
    createdRow]

/-- C3: in an environment where tokens can be signed (a secret is set, the
expiry is readable), `register` with an email no identity holds succeeds; the
user it returns is the selection of the row it has just created, whose id is
the store's next id, and the token it returns is `generateToken` of that id.
Verified with the same secret, that token yields the payload with that id at
every time before its expiry `now + span`, and `TokenExpiredError` from then on.
More generally every token `generateToken` mints for an id verifies, before its
expiry, to a payload with that id, and every successful `register`, in any
environment, returns the token minted for the id of the row it created. -/
theorem C3_register_token_roundtrip (env : ProcessEnv) (lib : Lib) (now : Nat) (s : Store)
    (data : UserData) (secret : String) (span : Nat)
    (hs : truthyStr env.JWT_SECRET = some secret)
    (ht : lib.jwt.timespan (orElseStr env.JWT_EXPIRES_IN "7d") = some span)
    (hfree : ∀ u ∈ s.users, u.email ≠ data.email) :
    (AuthService.register env lib now (.up s) data).result
        = .ok { user := (createdRow lib now s data).select registerSelect,
                token := lib.jwt.encode secret
                  { id := s.nextId, iat := now, exp := now + span } }
    ∧ (AuthService.register env lib now (.up s) data).db
        = .up { users := s.users ++ [createdRow lib now s data], nextId := s.nextId + 1 }
    ∧ ((createdRow lib now s data).select registerSelect).id = some s.nextId
    ∧ (createdRow lib now s data).id = s.nextId
    ∧ AuthService.generateToken env lib now s.nextId
        = .ok (lib.jwt.encode secret { id := s.nextId, iat := now, exp := now + span })
    ∧ (∀ t, t < now + span →
        jwtVerify lib.jwt
            (lib.jwt.encode secret { id := s.nextId, iat := now, exp := now + span })
            env.JWT_SECRET t
          = .ok { id := s.nextId, iat := now, exp := now + span })
    ∧ (∀ t, now + span ≤ t →
        jwtVerify lib.jwt
            (lib.jwt.encode secret { id := s.nextId, iat := now, exp := now + span })
            env.JWT_SECRET t
          = .error (plainError "TokenExpiredError" "jwt expired"))
    ∧ (∀ (id : UserId) (token : String),
        AuthService.generateToken env lib now id = .ok token →
        ∃ p, p.id = id ∧ p.exp = now + span
          ∧ ∀ t, t < p.exp → jwtVerify lib.jwt token env.JWT_SECRET t = .ok p)
    ∧ (∀ (env₂ : ProcessEnv) (now₂ : Nat) (s₂ : Store) (data₂ : UserData) (r : AuthResult),
        (AuthService.register env₂ lib now₂ (.up s₂) data₂).result = .ok r →
        ∃ row, (AuthService.register env₂ lib now₂ (.up s₂) data₂).db
              = .up { users := s₂.users ++ [row], nextId := s₂.nextId + 1 }
          ∧ row.email = data₂.email
          ∧ r.user = row.select registerSelect
          ∧ r.user.id = some row.id
          ∧ AuthService.generateToken env₂ lib now₂ row.id = .ok r.token
          ∧ ∃ p, p.id = row.id ∧ now₂ ≤ p.exp
              ∧ ∀ t, t < p.exp → jwtVerify lib.jwt r.token env₂.JWT_SECRET t = .ok p) := by
  obtain ⟨hres, hdb⟩ := register_succeeds env lib now s data secret span hs ht hfree
  refine ⟨hres, hdb, rfl, rfl, generateToken_ok env lib now s.nextId secret span hs ht,
    fun t hlt => ?_, fun t hge => ?_, fun id token h => ?_, fun env₂ now₂ s₂ data₂ r hr => ?_⟩
  · have hn : ¬ (t ≥ now + span) := by omega
    simp only [jwtVerify, hs, lib.jwt.decode_encode, hn, if_false]
  · have hn : t ≥ now + span := hge
    simp only [jwtVerify, hs, lib.jwt.decode_encode, hn, if_true]
  · obtain ⟨p, span₂, h₁, -, h₂, h₃, h₄⟩ := generateToken_verify env lib now id token h
    rw [ht] at h₂
    have hsp : span = span₂ := Option.some.inj h₂
    subst hsp
    exact ⟨p, h₁, h₃, h₄⟩
  · obtain ⟨-, hdb₂, huser, htok⟩ := register_ok env₂ lib now₂ s₂ data₂ r hr
    obtain ⟨p, span₂, h₁, -, -, h₃, h₄⟩ := generateToken_verify env₂ lib now₂ _ r.token htok
    refine ⟨createdRow lib now₂ s₂ data₂, hdb₂, rfl, huser, ?_, htok, p, h₁, ?_, h₄⟩
    · rw [huser]
      rfl
    · omega

/-- C3 on the demo store: registering a new email at time 5 succeeds with the
user of id 2 and the token `k.ii.aaaaa.eeeeeeeeee`; verified with the same
secret, the token yields id 2 at every time before 10 and is expired at 10; and
presented to `protect` at time 7 it resolves to the identity just created. -/
theorem C3_register_token_roundtrip_witness :
    (AuthService.register demoEnv demoLib 5 (.up demoStore) bobData).result
        = .ok { user :=
                  { id := some 2, email := some "b@x.io", password := none,
                    firstName := some "B", lastName := some "M", role := some "USER",
                    isActive := none, isVerified := none, createdAt := some 5,
                    updatedAt := none },
                token := "k.ii.aaaaa.eeeeeeeeee" }
    ∧ (∀ t, t < 5 + 5 →
        jwtVerify demoLib.jwt "k.ii.aaaaa.eeeeeeeeee" demoEnv.JWT_SECRET t
          = .ok { id := 2, iat := 5, exp := 10 })
    ∧ jwtVerify demoLib.jwt "k.ii.aaaaa.eeeeeeeeee" demoEnv.JWT_SECRET 10
        = .error (plainError "TokenExpiredError" "jwt expired")
    ∧ (protect demoEnv demoLib 7
          (AuthService.register demoEnv demoLib 5 (.up demoStore) bobData).db
          (requestWith (some "Bearer k.ii.aaaaa.eeeeeeeeee"))).req.user
        = some ((createdRow demoLib 5 demoStore bobData).select protectSelect) :=
  ⟨(C3_register_token_roundtrip demoEnv demoLib 5 demoStore bobData "k" 5
      (by decide) (by decide) (by decide)).1,
   (C3_register_token_roundtrip demoEnv demoLib 5 demoStore bobData "k" 5
      (by decide) (by decide) (by decide)).2.2.2.2.2.1,
   (C3_register_token_roundtrip demoEnv demoLib 5 demoStore bobData "k" 5
      (by decide) (by decide) (by decide)).2.2.2.2.2.2.1 10 (by decide),
   by decide⟩

/-- The body of `protect`, read by cases on the token and on what follows. -/
theorem protect_eq (env : ProcessEnv) (lib : Lib) (now : Nat) (db : Prisma) (req : Request) :
    protect env lib now db req =
      match bearerToken req.authorization with
      | none =>
        { req := req, sent := [], nextCalls :=
          [some (AppError "You are not logged in. Please login to access this resource" 401)] }
      | some token =>
        match jwtVerify lib.jwt token env.JWT_SECRET now with
        | .error error => { req := req, nextCalls := [some error], sent := [] }
        | .ok decoded =>
          match db.findUniqueById decoded.id with
          | .error e => { req := req, nextCalls := [some e], sent := [] }
          | .ok none =>
            { req := req, sent := [], nextCalls :=
              [some (AppError "The user belonging to this token no longer exists" 401)] }
          | .ok (some row) =>
            if row.isActive then
              { req := { req with user := some (row.select protectSelect) },
                nextCalls := [none], sent := [] }
            else
              { req := req, sent := [], nextCalls :=
                [some (AppError
                  "Your account has been deactivated. Please contact support" 403)] } := by
  have hsel : ∀ row : User, (row.select protectSelect).isActive = some row.isActive := by
    intro row
    rfl
  cases hT : truthyStr (headerToken req.authorization) with
  | none => simp [protect, catchAsync, protectFn, bearerToken, hT]
  | some token =>
    cases hV : jwtVerify lib.jwt token env.JWT_SECRET now with
    | error e => simp [protect, catchAsync, protectFn, bearerToken, hT, hV]
    | ok decoded =>
      cases hF : db.findUniqueById decoded.id with
      | error e => simp [protect, catchAsync, protectFn, bearerToken, hT, hV, hF]
      | ok found =>
        cases found with
        | none => simp [protect, catchAsync, protectFn, bearerToken, hT, hV, hF]
        | some row =>
          cases hA : row.isActive <;>
            simp [protect, catchAsync, protectFn, bearerToken, hT, hV, hF, hsel, truthyBool, hA]

/-- C4: `protect` calls `next()` without an error exactly when the header yields
a token, the token verifies, the lookup by the token's id finds an identity, and
that identity is active; then `req.user` is that identity's projection on `id`,
`email`, `firstName`, `lastName`, `role`, `isActive`, `isVerified` (no
`password`) and nothing else of the request changes; in every other case `next`
is called once with an error and the request is left as it was. -/
theorem C4_protect_iff (env : ProcessEnv) (lib : Lib) (now : Nat) (db : Prisma)
    (req : Request) :
    ((protect env lib now db req).nextCalls = [none] ↔
        ∃ token decoded row, bearerToken req.authorization = some token
          ∧ jwtVerify lib.jwt token env.JWT_SECRET now = .ok decoded
          ∧ db.findUniqueById decoded.id = .ok (some row)
          ∧ row.isActive = true)
    ∧ (∀ token decoded row, bearerToken req.authorization = some token →
        jwtVerify lib.jwt token env.JWT_SECRET now = .ok decoded →
        db.findUniqueById decoded.id = .ok (some row) →
        row.isActive = true →
        (protect env lib now db req).sent = []
          ∧ (protect env lib now db req).req =
            { req with user := some (
              { id := some row.id, email := some row.email, password := none,
                firstName := some row.firstName, lastName := some row.lastName,
                role := some row.role, isActive := some true,
                isVerified := some row.isVerified, createdAt := none,
                updatedAt := none } : UserObj) })
    ∧ ((protect env lib now db req).nextCalls ≠ [none] →
        (∃ e, (protect env lib now db req).nextCalls = [some e])
          ∧ (protect env lib now db req).req = req
          ∧ (protect env lib now db req).sent = []) := by
  have pass : ∀ token decoded row, bearerToken req.authorization = some token →
      jwtVerify lib.jwt token env.JWT_SECRET now = .ok decoded →
      db.findUniqueById decoded.id = .ok (some row) → row.isActive = true →
      protect env lib now db req =
        { req := { req with user := some (row.select protectSelect) },
          nextCalls := [none], sent := [] } := by
    intro token decoded row hT hV hF hA
    rw [protect_eq]
    simp [hT, hV, hF, hA]
  have fail : ((protect env lib now db req).nextCalls = [none] →
        ∃ token decoded row, bearerToken req.authorization = some token
          ∧ jwtVerify lib.jwt token env.JWT_SECRET now = .ok decoded
          ∧ db.findUniqueById decoded.id = .ok (some row)
          ∧ row.isActive = true)
      ∧ ((protect env lib now db req).nextCalls ≠ [none] →
        (∃ e, (protect env lib now db req).nextCalls = [some e])
          ∧ (protect env lib now db req).req = req
          ∧ (protect env lib now db req).sent = []) := by
    rw [protect_eq]
    cases hT : bearerToken req.authorization with
    | none => simp
    | some token =>
      cases hV : jwtVerify lib.jwt token env.JWT_SECRET now with
      | error e => simp [hV]
      | ok decoded =>
        cases hF : db.findUniqueById decoded.id with
        | error e => simp [hV, hF]
        | ok found =>
          cases found with
          | none => simp [hV, hF]
          | some row =>
            cases hA : row.isActive with
            | false => simp [hV, hF, hA]
            | true => simp [hV, hF, hA]
  refine ⟨⟨fail.1, ?_⟩, ?_, fail.2⟩
  · rintro ⟨token, decoded, row, hT, hV, hF, hA⟩
    rw [pass token decoded row hT hV hF hA]
  · intro token decoded row hT hV hF hA
    rw [pass token decoded row hT hV hF hA]
    simp [User.select, pick, protectSelect, hA]

/-- C4 on the demo store: the token issued to the stored identity passes at
time 3 and attaches its projection. -/
theorem C4_protect_iff_witness :
    (protect demoEnv demoLib 3 (.up demoStore) (requestWith (some "Bearer k.i.a.eeeeee"))).sent
        = []
      ∧ (protect demoEnv demoLib 3 (.up demoStore)
          (requestWith (some "Bearer k.i.a.eeeeee"))).req =
        { requestWith (some "Bearer k.i.a.eeeeee") with user := some (
          { id := some 1, email := some "a@x.io", password := none,
            firstName := some "A", lastName := some "L",
            role := some "USER", isActive := some true,
            isVerified := some false, createdAt := none, updatedAt := none } : UserObj) } :=
  (C4_protect_iff demoEnv demoLib 3 (.up demoStore)
    (requestWith (some "Bearer k.i.a.eeeeee"))).2.1
    "k.i.a.eeeeee" { id := 1, iat := 1, exp := 6 } alice
    (by decide) (by decide) (by decide) (by decide)

/-- The response `errorHandler` sends for an `AppError`, in any mode: its status
code and its message. -/
theorem errorHandler_appError (env : ProcessEnv) (message : String) (code : Nat)
    (hc : code ≠ 0) :
    (errorHandler env (AppError message code)).status = code
      ∧ (errorHandler env (AppError message code)).body.code = code
      ∧ (errorHandler env (AppError message code)).body.message = message
      ∧ (errorHandler env (AppError message code)).body.success = false := by
  by_cases hd : env.NODE_ENV = some "development" <;>
    simp [errorHandler, AppError, spreadCopy, sendErrorDev, sendErrorProd, ApiResponse.error,
      orElseNat, hd, hc]

/-- C5: when the token verifies to an id whose identity the store now holds as
inactive, `protect` calls `next` once, with the 403 error, attaches nothing to
the request and sends nothing itself; the error handler answers 403. Nothing is
assumed of the identity at the time the token was issued. -/
theorem C5_inactive_forbidden (env : ProcessEnv) (lib : Lib) (now : Nat) (db : Prisma)
    (req : Request) (token : String) (decoded : JwtPayload) (row : User)
    (hT : bearerToken req.authorization = some token)
    (hV : jwtVerify lib.jwt token env.JWT_SECRET now = .ok decoded)
    (hF : db.findUniqueById decoded.id = .ok (some row))
    (hA : row.isActive = false) :
    protect env lib now db req =
        { req := req, sent := [], nextCalls :=
          [some (AppError "Your account has been deactivated. Please contact support" 403)] }
      ∧ (protect env lib now db req).nextCalls ≠ [none]
      ∧ (∀ e, some e ∈ (protect env lib now db req).nextCalls → e.statusCode = some 403)
      ∧ (respond env (protect env lib now db req)).map (fun r => r.status) = [403] := by
  have h : protect env lib now db req =
      { req := req, sent := [], nextCalls :=
        [some (AppError "Your account has been deactivated. Please contact support" 403)] } := by
    rw [protect_eq]
    simp [hT, hV, hF, hA]
  have hs := (errorHandler_appError env
    "Your account has been deactivated. Please contact support" 403 (by decide)).1
  rw [h]
  refine ⟨rfl, by simp, ?_, ?_⟩
  · intro e he
    simp at he
    rw [he]
    rfl
  · simp [respond, hs]

/-- C5 on the demo store: the token `login` issued at time 1 to the then active
identity is refused at time 3, once the identity has been deactivated. -/
theorem C5_inactive_forbidden_witness :
    (AuthService.login demoEnv demoLib 1 (.up demoStore) "a@x.io" "pw").result.toOption.map
        (fun r => r.token) = some "k.i.a.eeeeee"
      ∧ protect demoEnv demoLib 3 (.up deactivatedStore)
          (requestWith (some "Bearer k.i.a.eeeeee")) =
        { req := requestWith (some "Bearer k.i.a.eeeeee"), sent := [], nextCalls :=
          [some (AppError "Your account has been deactivated. Please contact support" 403)] } :=
  ⟨by decide,
   (C5_inactive_forbidden demoEnv demoLib 3 (.up deactivatedStore)
      (requestWith (some "Bearer k.i.a.eeeeee")) "k.i.a.eeeeee" { id := 1, iat := 1, exp := 6 }
      { alice with isActive := false } (by decide) (by decide) (by decide) (by decide)).1⟩

/-- What `protect` and the error handler answer when verification throws. -/
theorem respond_protect_verify_error (env : ProcessEnv) (lib : Lib) (now : Nat) (db : Prisma)
    (req : Request) (token : String) (e : JsError)
    (hT : bearerToken req.authorization = some token)
    (hV : jwtVerify lib.jwt token env.JWT_SECRET now = .error e) :
    respond env (protect env lib now db req) = [errorHandler env e] := by
  rw [protect_eq]
  simp [hT, hV, respond]

/-- C6: with `protect` followed by the error handler, in any mode, a token whose
verification raises a `TokenExpiredError` is answered 401 with `Your token has
expired. Please login again`, one whose verification raises a
`JsonWebTokenError` is answered 401 with `Invalid token. Please login again`: the
same status, two different messages. -/
theorem C6_expired_and_invalid_token (env : ProcessEnv) (lib : Lib) (now₁ now₂ : Nat)
    (db₁ db₂ : Prisma) (req₁ req₂ : Request) (token₁ token₂ : String) (e₁ e₂ : JsError)
    (hT₁ : bearerToken req₁.authorization = some token₁)
    (hV₁ : jwtVerify lib.jwt token₁ env.JWT_SECRET now₁ = .error e₁)
    (hn₁ : e₁.name = "TokenExpiredError")
    (hT₂ : bearerToken req₂.authorization = some token₂)
    (hV₂ : jwtVerify lib.jwt token₂ env.JWT_SECRET now₂ = .error e₂)
    (hn₂ : e₂.name = "JsonWebTokenError") :
    ∃ r₁ r₂, respond env (protect env lib now₁ db₁ req₁) = [r₁]
      ∧ respond env (protect env lib now₂ db₂ req₂) = [r₂]
      ∧ r₁.status = 401 ∧ r₁.body.code = 401 ∧ r₁.body.success = false
      ∧ r₁.body.message = "Your token has expired. Please login again"
      ∧ r₂.status = 401 ∧ r₂.body.code = 401 ∧ r₂.body.success = false
      ∧ r₂.body.message = "Invalid token. Please login again"
      ∧ r₁.status = r₂.status ∧ r₁.body.message ≠ r₂.body.message := by
  refine ⟨errorHandler env e₁, errorHandler env e₂,
    respond_protect_verify_error env lib now₁ db₁ req₁ token₁ e₁ hT₁ hV₁,
    respond_protect_verify_error env lib now₂ db₂ req₂ token₂ e₂ hT₂ hV₂, ?_⟩
  by_cases hd : env.NODE_ENV = some "development" <;>
    simp [errorHandler, hn₁, hn₂, handleJWTError, handleJWTExpiredError, AppError,
      sendErrorDev, sendErrorProd, ApiResponse.error, orElseNat, hd]

/-- C6 on the demo store, in production mode: the token of the stored identity
presented after its expiry, and the same token with a byte appended. -/
theorem C6_expired_and_invalid_token_witness :
    ∃ r₁ r₂, respond demoEnv (protect demoEnv demoLib 6 (.up demoStore)
          (requestWith (some "Bearer k.i.a.eeeeee"))) = [r₁]
      ∧ respond demoEnv (protect demoEnv demoLib 3 (.up demoStore)
          (requestWith (some "Bearer k.i.a.eeeeeex"))) = [r₂]
      ∧ r₁.status = 401 ∧ r₁.body.code = 401 ∧ r₁.body.success = false
      ∧ r₁.body.message = "Your token has expired. Please login again"
      ∧ r₂.status = 401 ∧ r₂.body.code = 401 ∧ r₂.body.success = false
      ∧ r₂.body.message = "Invalid token. Please login again"
      ∧ r₁.status = r₂.status ∧ r₁.body.message ≠ r₂.body.message :=
  C6_expired_and_invalid_token demoEnv demoLib 6 3 (.up demoStore) (.up demoStore)
    (requestWith (some "Bearer k.i.a.eeeeee")) (requestWith (some "Bearer k.i.a.eeeeeex"))
    "k.i.a.eeeeee" "k.i.a.eeeeeex"
    (plainError "TokenExpiredError" "jwt expired")
    (plainError "JsonWebTokenError" "jwt malformed")
    (by decide) (by decide) (by decide) (by decide) (by decide) (by decide)

/-- The object `optionalAuth` fetches has no `isActive` property, whatever the row. -/
theorem optionalAuthSelect_isActive (row : User) :
    (row.select optionalAuthSelect).isActive = none := rfl

/-- What `optionalAuth` does, read by cases on the token `protect` would go on
with: the outcome is always `next()` on the request as it came, and the library
is called with that token, then with the id it decodes to. -/
theorem optionalAuthRun_eq (env : ProcessEnv) (lib : Lib) (now : Nat) (db : Prisma)
    (req : Request) :
    optionalAuthRun env lib now db req =
      match bearerToken req.authorization with
      | none => (.ok { req := req, nextCalls := [none], sent := [] }, [])
      | some token =>
        match jwtVerify lib.jwt token env.JWT_SECRET now with
        | .error _ =>
          (.ok { req := req, nextCalls := [none], sent := [] }, [.jwtVerify token])
        | .ok decoded =>
          (.ok { req := req, nextCalls := [none], sent := [] },
           [.jwtVerify token, .findUnique decoded.id]) := by
  have key : ∀ tok : Option String,
      (match truthyStr tok with
        | none =>
          ((.ok { req := req, nextCalls := [none], sent := [] }, []) :
            Except JsError MwOutcome × List LibCall)
        | some token =>
          (.ok { req :=
                  (match jwtVerify lib.jwt token env.JWT_SECRET now with
                    | .error _ => ((req, [.jwtVerify token]) : Request × List LibCall)
                    | .ok decoded =>
                      match db.findUniqueById decoded.id with
                      | .error _ => (req, [.jwtVerify token, .findUnique decoded.id])
                      | .ok none => (req, [.jwtVerify token, .findUnique decoded.id])
                      | .ok (some row) =>
                        (if truthyBool (row.select optionalAuthSelect).isActive then
                            { req with user := some (row.select optionalAuthSelect) }
                          else req,
                         [.jwtVerify token, .findUnique decoded.id])).1,
                 nextCalls := [none], sent := [] },
           (match jwtVerify lib.jwt token env.JWT_SECRET now with
              | .error _ => ((req, [.jwtVerify token]) : Request × List LibCall)
              | .ok decoded =>
                match db.findUniqueById decoded.id with
                | .error _ => (req, [.jwtVerify token, .findUnique decoded.id])
                | .ok none => (req, [.jwtVerify token, .findUnique decoded.id])
                | .ok (some row) =>
                  (if truthyBool (row.select optionalAuthSelect).isActive then
                      { req with user := some (row.select optionalAuthSelect) }
                    else req,
                   [.jwtVerify token, .findUnique decoded.id])).2))
      = match truthyStr tok with
        | none => (.ok { req := req, nextCalls := [none], sent := [] }, [])
        | some token =>
          match jwtVerify lib.jwt token env.JWT_SECRET now with
          | .error _ =>
            (.ok { req := req, nextCalls := [none], sent := [] }, [.jwtVerify token])
          | .ok decoded =>
            (.ok { req := req, nextCalls := [none], sent := [] },
             [.jwtVerify token, .findUnique decoded.id]) := by
    intro tok
    cases truthyStr tok with
    | none => rfl
    | some token =>
      simp only []
      cases jwtVerify lib.jwt token env.JWT_SECRET now with
      | error e => rfl
      | ok decoded =>
        simp only []
        cases db.findUniqueById decoded.id with
        | error e => rfl
        | ok found =>
          cases found with
          | none => rfl
          | some row => simp [optionalAuthSelect_isActive, truthyBool]
  cases hA : truthyStr req.authorization with
  | none =>
    have := key none
    simpa [optionalAuthRun, bearerToken, headerToken, hA] using this
  | some a =>
    cases hS : startsWith a "Bearer" with
    | false =>
      have := key none
      simpa [optionalAuthRun, bearerToken, headerToken, hA, hS] using this
    | true =>
      have := key (splitAt? a ' ' 1)
      simpa [optionalAuthRun, bearerToken, headerToken, hA, hS] using this

/-- The outcome of `optionalAuth`: always `next()`, the request as it came. -/
theorem optionalAuth_eq (env : ProcessEnv) (lib : Lib) (now : Nat) (db : Prisma)
    (req : Request) :
    optionalAuth env lib now db req = { req := req, nextCalls := [none], sent := [] } := by
  unfold optionalAuth catchAsync optionalAuthFn
  rw [optionalAuthRun_eq]
  cases bearerToken req.authorization with
  | none => rfl
  | some token =>
    simp only []
    cases jwtVerify lib.jwt token env.JWT_SECRET now <;> rfl

/-- C7, the code at the failing input: the header `Bearer k.i.a.eeeeee` carries a
token that verifies at time 3 to the active identity of the demo store, and
`protect` attaches that identity; `optionalAuth` proceeds with `req.user` unset.
Its `select` leaves `isActive` out, so the test `user && user.isActive` never
holds, and `optionalAuth` never attaches an identity to any request. -/
theorem C7_optionalAuth_never_attaches :
    jwtVerify demoLib.jwt "k.i.a.eeeeee" demoEnv.JWT_SECRET 3
        = .ok { id := 1, iat := 1, exp := 6 }
      ∧ (Prisma.up demoStore).findUniqueById 1 = .ok (some alice)
      ∧ alice.isActive = true
      ∧ (protect demoEnv demoLib 3 (.up demoStore)
          (requestWith (some "Bearer k.i.a.eeeeee"))).req.user
        = some (alice.select protectSelect)
      ∧ (optionalAuth demoEnv demoLib 3 (.up demoStore)
          (requestWith (some "Bearer k.i.a.eeeeee"))).req.user = none
      ∧ (optionalAuth demoEnv demoLib 3 (.up demoStore)
          (requestWith (some "Bearer k.i.a.eeeeee"))).nextCalls = [none]
      ∧ ∀ (env : ProcessEnv) (lib : Lib) (now : Nat) (db : Prisma) (req : Request),
          (optionalAuth env lib now db req).req = req := by
  refine ⟨by decide, by decide, by decide, by decide, by decide, by decide, ?_⟩
  intro env lib now db req
  rw [optionalAuth_eq]

/-- C8: whatever the header, the outcome of verification and the outcome of the
lookup (a database that rejects the query included), `optionalAuth` calls `next`
exactly once, without an error, and sends no response; so the error handler is
never reached and no response follows from `optionalAuth` itself. -/
theorem C8_optionalAuth_swallows_errors (env : ProcessEnv) (lib : Lib) (now : Nat)
    (db : Prisma) (req : Request) :
    (optionalAuth env lib now db req).nextCalls = [none]
      ∧ (optionalAuth env lib now db req).sent = []
      ∧ respond env (optionalAuth env lib now db req) = [] := by
  rw [optionalAuth_eq]
  simp [respond]

/-- C9: on a request carrying an identity, the middleware `restrictTo(...roles)`
does not throw, leaves the request unchanged and sends nothing; it calls
`next()` without an error exactly when the identity's role is one of `roles`,
and otherwise calls `next` once with a 403 error; with no roles it lets no
identity through. -/
theorem C9_restrictTo_iff (roles : List String) (req : Request) (user : UserObj)
    (hu : req.user = some user) :
    ∃ o, restrictTo roles req = .ok o
      ∧ o.req = req ∧ o.sent = []
      ∧ (o.nextCalls = [none] ↔ ∃ r, user.role = some r ∧ r ∈ roles)
      ∧ (o.nextCalls ≠ [none] →
          o.nextCalls
            = [some (AppError "You do not have permission to perform this action" 403)]
          ∧ ∀ e, some e ∈ o.nextCalls → e.statusCode = some 403)
      ∧ (roles = [] → o.nextCalls ≠ [none]) := by
  cases hr : user.role with
  | none => simp [restrictTo, hu, includes, hr, AppError]
  | some r =>
    by_cases hm : r ∈ roles
    · have hne : roles ≠ [] := List.ne_nil_of_mem hm
      simp [restrictTo, hu, includes, hr, hm, hne]
    · simp [restrictTo, hu, includes, hr, hm, AppError]

/-- C9 on two requests carrying the projection of the demo identity (role
`USER`): admitted by `restrictTo('ADMIN', 'USER')`, refused by `restrictTo()`. -/
theorem C9_restrictTo_iff_witness :
    (∃ o, restrictTo ["ADMIN", "USER"]
          { requestWith none with user := some (alice.select protectSelect) } = .ok o
        ∧ o.nextCalls = [none])
    ∧ (∃ o, restrictTo [] { requestWith none with user := some (alice.select protectSelect) }
          = .ok o
        ∧ o.nextCalls ≠ [none]) := by
  constructor
  · obtain ⟨o, h₁, -, -, h₂, -, -⟩ := C9_restrictTo_iff ["ADMIN", "USER"]
      { requestWith none with user := some (alice.select protectSelect) }
      (alice.select protectSelect) rfl
    exact ⟨o, h₁, h₂.2 ⟨"USER", by decide, by decide⟩⟩
  · obtain ⟨o, h₁, -, -, -, -, h₂⟩ := C9_restrictTo_iff []
      { requestWith none with user := some (alice.select protectSelect) }
      (alice.select protectSelect) rfl
    exact ⟨o, h₁, h₂ rfl⟩

/-- C10: in an environment where tokens can be signed (a secret is set, the
expiry is readable), `login` returns a token exactly when an identity with the
email exists, the password matches its hash and the identity is active; with
the identity found and the password matching but `isActive` false it fails with
the 403 error, in any environment; so a returned token always belongs to an
active identity. -/
theorem C10_login_iff (env : ProcessEnv) (lib : Lib) (now : Nat) (s : Store)
    (email password : String) (secret : String) (span : Nat)
    (hs : truthyStr env.JWT_SECRET = some secret)
    (ht : lib.jwt.timespan (orElseStr env.JWT_EXPIRES_IN "7d") = some span) :
    ((∃ r, (AuthService.login env lib now (.up s) email password).result = .ok r) ↔
        ∃ u, (Prisma.up s).findUniqueByEmail email = .ok (some u)
          ∧ lib.bcryptCompare password u.password = true
          ∧ u.isActive = true)
    ∧ (∀ u, (Prisma.up s).findUniqueByEmail email = .ok (some u) →
        lib.bcryptCompare password u.password = true →
        u.isActive = false →
        (AuthService.login env lib now (.up s) email password).result
          = .error (AppError "Your account has been deactivated" 403))
    ∧ (∀ r, (AuthService.login env lib now (.up s) email password).result = .ok r →
        ∃ u, (Prisma.up s).findUniqueByEmail email = .ok (some u)
          ∧ u.isActive = true
          ∧ AuthService.generateToken env lib now u.id = .ok r.token) := by
  cases hf : (Prisma.up s).findUniqueByEmail email with
  | error e => simp [Prisma.findUniqueByEmail] at hf
  | ok found =>
    cases found with
    | none => simp [AuthService.login, hf]
    | some u =>
      cases hp : lib.bcryptCompare password u.password with
      | false => simp [AuthService.login, hf, hp]
      | true =>
        cases ha : u.isActive with
        | false => simp [AuthService.login, hf, hp, ha]
        | true =>
          have hg := generateToken_ok env lib now u.id secret span hs ht
          simp [AuthService.login, hf, hp, ha, hg]

/-- C10 on the demo store and its deactivated copy: the active identity gets a
token, the deactivated one the 403 error. -/
theorem C10_login_iff_witness :
    (∃ r, (AuthService.login demoEnv demoLib 1 (.up demoStore) "a@x.io" "pw").result = .ok r)
    ∧ (AuthService.login demoEnv demoLib 1 (.up deactivatedStore) "a@x.io" "pw").result
        = .error (AppError "Your account has been deactivated" 403) :=
  ⟨((C10_login_iff demoEnv demoLib 1 demoStore "a@x.io" "pw" "k" 5
      (by decide) (by decide)).1).2 ⟨alice, by decide, by decide, by decide⟩,
   (C10_login_iff demoEnv demoLib 1 deactivatedStore "a@x.io" "pw" "k" 5
      (by decide) (by decide)).2.1 { alice with isActive := false }
      (by decide) (by decide) (by decide)⟩

/-- C11: the user object a successful `login` returns has no `password`
property and carries every other column of the stored row it found, unchanged. -/
theorem C11_login_user_without_password (env : ProcessEnv) (lib : Lib) (now : Nat)
    (db : Prisma) (email password : String) (r : AuthResult)
    (h : (AuthService.login env lib now db email password).result = .ok r) :
    ∃ u, db.findUniqueByEmail email = .ok (some u)
      ∧ r.user.password = none
      ∧ r.user.id = some u.id ∧ r.user.email = some u.email
      ∧ r.user.firstName = some u.firstName ∧ r.user.lastName = some u.lastName
      ∧ r.user.role = some u.role ∧ r.user.isActive = some u.isActive
      ∧ r.user.isVerified = some u.isVerified
      ∧ r.user.createdAt = some u.createdAt ∧ r.user.updatedAt = some u.updatedAt := by
  cases hf : db.findUniqueByEmail email with
  | error e => simp [AuthService.login, hf] at h
  | ok found =>
    cases found with
    | none => simp [AuthService.login, hf] at h
    | some u =>
      refine ⟨u, rfl, ?_⟩
      cases hp : lib.bcryptCompare password u.password with
      | false => simp [AuthService.login, hf, hp] at h
      | true =>
        cases ha : u.isActive with
        | false => simp [AuthService.login, hf, hp, ha] at h
        | true =>
          cases hg : AuthService.generateToken env lib now u.id with
          | error e => simp [AuthService.login, hf, hp, ha, hg] at h
          | ok token =>
            simp [AuthService.login, hf, hp, ha, hg] at h
            subst h
            simp [User.select, pick, allFields, ha]

/-- C11 on the demo store: the user returned to the stored identity. -/
theorem C11_login_user_without_password_witness :
    ∃ u, (Prisma.up demoStore).findUniqueByEmail "a@x.io" = .ok (some u)
      ∧ (none : Option String) = none
      ∧ some 1 = some u.id ∧ some "a@x.io" = some u.email
      ∧ some "A" = some u.firstName ∧ some "L" = some u.lastName
      ∧ some "USER" = some u.role ∧ some true = some u.isActive
      ∧ some false = some u.isVerified
      ∧ some 0 = some u.createdAt ∧ some 0 = some u.updatedAt :=
  C11_login_user_without_password demoEnv demoLib 1 (.up demoStore) "a@x.io" "pw"
    { user := { id := some 1, email := some "a@x.io", password := none,
                firstName := some "A", lastName := some "L", role := some "USER",
                isActive := some true, isVerified := some false,
                createdAt := some 0, updatedAt := some 0 },
      token := "k.i.a.eeeeee" } (by decide)

/-- What `errorHandler` sends, outside development mode, for an error whose
name is not classified: by `isOperational`, the copy's status code and message
or the generic 500. -/
theorem errorHandler_prod_unclassified (env : ProcessEnv) (err : JsError)
    (hprod : env.NODE_ENV ≠ some "development") (hname : err.name ∉ classifiedNames) :
    errorHandler env err =
      if err.isOperational then
        { status := orElseNat err.statusCode 500,
          body := { success := false, code := orElseNat err.statusCode 500,
                    message := err.message, errors := none } }
      else
        { status := 500,
          body := { success := false, code := 500, message := "Something went wrong!",
                    errors := none } } := by
  simp only [classifiedNames, List.mem_cons, List.mem_singleton, not_or, List.mem_nil_iff,
    or_false] at hname
  obtain ⟨h₁, h₂, h₃, h₄⟩ := hname
  cases ho : err.isOperational <;>
    simp [errorHandler, h₁, h₂, h₃, h₄, hprod, sendErrorProd, spreadCopy, ApiResponse.error, ho]

/-- C12: outside development mode, for an error whose name is none of the four
classified names: when `isOperational` holds the response has the error's status
code (500 when it has none) and the error's message; otherwise it is exactly
status 500 with body `success: false, code: 500, message: 'Something went
wrong!'`, the same response for any two such errors. -/
theorem C12_production_disclosure (env : ProcessEnv) (err : JsError)
    (hprod : env.NODE_ENV ≠ some "development") (hname : err.name ∉ classifiedNames) :
    (err.isOperational = true →
        (errorHandler env err).status = orElseNat err.statusCode 500
          ∧ (err.statusCode = none → (errorHandler env err).status = 500)
          ∧ (∀ c, err.statusCode = some c → c ≠ 0 → (errorHandler env err).status = c)
          ∧ (errorHandler env err).body.code = (errorHandler env err).status
          ∧ (errorHandler env err).body.message = err.message
          ∧ (errorHandler env err).body.success = false
          ∧ (errorHandler env err).body.errors = none)
    ∧ (err.isOperational = false →
        errorHandler env err =
            { status := 500,
              body := { success := false, code := 500, message := "Something went wrong!",
                        errors := none } }
          ∧ ∀ err₂ : JsError, err₂.name ∉ classifiedNames → err₂.isOperational = false →
              errorHandler env err₂ = errorHandler env err) := by
  have h := errorHandler_prod_unclassified env err hprod hname
  refine ⟨fun ho => ?_, fun ho => ?_⟩
  · rw [h, if_pos ho]
    refine ⟨rfl, ?_, ?_, rfl, rfl, rfl, rfl⟩
    · intro hn
      simp [hn, orElseNat]
    · intro c hc hz
      simp [hc, orElseNat, hz]
  · rw [h, if_neg (by simp [ho])]
    refine ⟨rfl, fun err₂ hn₂ ho₂ => ?_⟩
    rw [errorHandler_prod_unclassified env err₂ hprod hn₂, if_neg (by simp [ho₂])]

/-- C12 in the demo environment (production): an operational 404 error keeps its
status and message, two unrelated programming errors get the same generic 500. -/
theorem C12_production_disclosure_witness :
    ((errorHandler demoEnv (AppError "No such thing" 404)).status = 404
      ∧ (errorHandler demoEnv (AppError "No such thing" 404)).body.message = "No such thing")
    ∧ errorHandler demoEnv (plainError "TypeError" "x is not a function") =
        { status := 500,
          body := { success := false, code := 500, message := "Something went wrong!",
                    errors := none } }
    ∧ errorHandler demoEnv (plainError "RangeError" "secret detail")
        = errorHandler demoEnv (plainError "TypeError" "x is not a function") :=
  ⟨⟨((C12_production_disclosure demoEnv (AppError "No such thing" 404) (by decide)
        (by decide)).1 rfl).2.2.1 404 rfl (by decide),
    ((C12_production_disclosure demoEnv (AppError "No such thing" 404) (by decide)
        (by decide)).1 rfl).2.2.2.2.1⟩,
   ((C12_production_disclosure demoEnv (plainError "TypeError" "x is not a function")
        (by decide) (by decide)).2 rfl).1,
   ((C12_production_disclosure demoEnv (plainError "TypeError" "x is not a function")
        (by decide) (by decide)).2 rfl).2 (plainError "RangeError" "secret detail")
        (by decide) rfl⟩

/-- C13, the code at the failing input: in development mode `errorHandler` is
given `new Error('boom')`, an unclassified error without status code whose stack
is `Error: boom`. The response has status 500 and the message `boom`, but the
`stack` of its `errors` detail is undefined: the detail is built from the spread
copy of the error, and no spread copy has a stack. -/
theorem C13_dev_response_without_stack :
    (plainError "Error" "boom").stack = some "Error: boom"
      ∧ (plainError "Error" "boom").statusCode = none
      ∧ (plainError "Error" "boom").name ∉ classifiedNames
      ∧ devEnv.NODE_ENV = some "development"
      ∧ errorHandler devEnv (plainError "Error" "boom") =
          { status := 500,
            body := { success := false, code := 500, message := "boom",
                      errors := some (.dev none
                        { name := "Error", message := "boom", statusCode := some 500,
                          status := none, isOperational := false, code := none,
                          metaTarget := none, stack := none }
                        none) } }
      ∧ (∀ err : JsError, (spreadCopy err).stack = none)
      ∧ errorHandler demoEnv (plainError "Error" "boom") =
          { status := 500,
            body := { success := false, code := 500, message := "Something went wrong!",
                      errors := none } } := by
  refine ⟨rfl, rfl, by decide, rfl, by decide, fun _ => rfl, by decide⟩

/-- The response to an error named `PrismaClientKnownRequestError`, in any mode:
the status and message of what `handlePrismaKnownError` returns. -/
theorem errorHandler_prismaKnown (env : ProcessEnv) (err : JsError)
    (hname : err.name = "PrismaClientKnownRequestError") :
    (errorHandler env err).status
        = orElseNat (handlePrismaKnownError err).statusCode 500
      ∧ (errorHandler env err).body.code = (errorHandler env err).status
      ∧ (errorHandler env err).body.message = (handlePrismaKnownError err).message
      ∧ (errorHandler env err).body.success = false := by
  have hk : ∃ msg code, handlePrismaKnownError err = AppError msg code ∧ code ≠ 0 := by
    unfold handlePrismaKnownError
    split
    · exact ⟨_, 409, rfl, by decide⟩
    · split
      · exact ⟨_, 404, rfl, by decide⟩
      · exact ⟨_, 400, rfl, by decide⟩
  obtain ⟨msg, code, hk, hc⟩ := hk
  have he : errorHandler env err =
      if env.NODE_ENV = some "development" then sendErrorDev (AppError msg code)
      else sendErrorProd (AppError msg code) := by
    simp [errorHandler, hname, hk]
  rw [he, hk]
  by_cases hd : env.NODE_ENV = some "development" <;>
    simp [hd, sendErrorDev, sendErrorProd, AppError, ApiResponse.error, orElseNat, hc]

/-- C14: an error named `PrismaClientKnownRequestError` is answered, in any
mode, by its code: `P2002` with 409 and `<field> already exists`, where
`<field>` is the first entry of `meta.target`, or the word `field` when
`meta.target` is absent or empty (or its first entry is the empty string);
`P2025` with 404 and `Resource not found`; any other code with 400 and
`Database operation failed`. -/
theorem C14_prisma_known_errors (env : ProcessEnv) (err : JsError)
    (hname : err.name = "PrismaClientKnownRequestError") :
    (err.code = some "P2002" →
        (errorHandler env err).status = 409
          ∧ (errorHandler env err).body.code = 409
          ∧ (errorHandler env err).body.message
              = orElseStr (err.metaTarget.bind List.head?) "field" ++ " already exists"
          ∧ (∀ f rest, err.metaTarget = some (f :: rest) → f ≠ "" →
              (errorHandler env err).body.message = f ++ " already exists")
          ∧ (err.metaTarget = none ∨ err.metaTarget = some [] →
              (errorHandler env err).body.message = "field already exists"))
    ∧ (err.code = some "P2025" →
        (errorHandler env err).status = 404
          ∧ (errorHandler env err).body.code = 404
          ∧ (errorHandler env err).body.message = "Resource not found")
    ∧ (err.code ≠ some "P2002" → err.code ≠ some "P2025" →
        (errorHandler env err).status = 400
          ∧ (errorHandler env err).body.code = 400
          ∧ (errorHandler env err).body.message = "Database operation failed") := by
  obtain ⟨hs, hc, hm, -⟩ := errorHandler_prismaKnown env err hname
  rw [hc, hs, hm]
  refine ⟨fun h => ?_, fun h => ?_, fun h₁ h₂ => ?_⟩
  · have hk : handlePrismaKnownError err
        = AppError (orElseStr (err.metaTarget.bind List.head?) "field" ++ " already exists")
            409 := by
      simp [handlePrismaKnownError, h]
    rw [hk]
    refine ⟨rfl, rfl, rfl, ?_, ?_⟩
    · intro f rest ht hf
      simp [AppError, ht, orElseStr, truthyStr, hf]
    · rintro (ht | ht) <;> simp [AppError, ht, orElseStr, truthyStr]
  · have hk : handlePrismaKnownError err = AppError "Resource not found" 404 := by
      simp [handlePrismaKnownError, h]
    rw [hk]
    exact ⟨rfl, rfl, rfl⟩
  · have hk : handlePrismaKnownError err = AppError "Database operation failed" 400 := by
      simp [handlePrismaKnownError, h₁, h₂]
    rw [hk]
    exact ⟨rfl, rfl, rfl⟩

/-- C14 in development mode: a duplicate email, a duplicate without target, a
missing record, and a foreign-key violation. -/
theorem C14_prisma_known_errors_witness :
    (errorHandler devEnv (prismaKnownError "P2002" (some ["email"]))).body.message
        = "email" ++ " already exists"
    ∧ (errorHandler devEnv (prismaKnownError "P2002" none)).body.message
        = "field already exists"
    ∧ (errorHandler devEnv (prismaKnownError "P2025" none)).status = 404
    ∧ (errorHandler devEnv (prismaKnownError "P2003" none)).body.message
        = "Database operation failed" :=
  ⟨((C14_prisma_known_errors devEnv (prismaKnownError "P2002" (some ["email"])) rfl).1
      rfl).2.2.2.1 "email" [] rfl (by decide),
   ((C14_prisma_known_errors devEnv (prismaKnownError "P2002" none) rfl).1 rfl).2.2.2.2
      (Or.inl rfl),
   ((C14_prisma_known_errors devEnv (prismaKnownError "P2025" none) rfl).2.1 rfl).1,
   ((C14_prisma_known_errors devEnv (prismaKnownError "P2003" none) rfl).2.2
      (by decide) (by decide)).2.2⟩

/-- C15, the claim refuted at two requests that match no registered route and
that the API rate limiter lets through. `GET /api/%E0%A4%A`: the path does not
decode, Express raises its 400 `URIError` in the `*` route, and the error
handler answers 500 `Something went wrong!` in production mode and 400 in
development mode. `OPTIONS /api/non-existent-route`: `cors` ends the response
itself. Neither is answered 404. -/
theorem C15_undecodable_path_and_preflight :
    (∀ r ∈ routes, exactMatch r "GET" "/api/%E0%A4%A" = false)
    ∧ (rateLimit (apiLimiterOptions demoEnv) noBuckets
          { requestWith none with originalUrl := "/api/%E0%A4%A" } 0 (fun _ => 0)).1
        = .passed 0
    ∧ uriDecodes (pathname "/api/%E0%A4%A") = false
    ∧ (app demoEnv exactMatch noBuckets 0 "GET" none
          { requestWith none with originalUrl := "/api/%E0%A4%A" }).1
        = .sent [{ status := 500,
                   body := { success := false, code := 500,
                             message := "Something went wrong!", errors := none } }]
    ∧ (app devEnv exactMatch noBuckets 0 "GET" none
          { requestWith none with originalUrl := "/api/%E0%A4%A" }).1
        = .sent [{ status := 400,
                   body := { success := false, code := 400,
                             message := "Failed to decode param '/api/%E0%A4%A'",
                             errors := some (.dev (some "400")
                               { decodeParamError "/api/%E0%A4%A" with stack := none }
                               none) } }]
    ∧ (∀ r ∈ routes, exactMatch r "OPTIONS" "/api/non-existent-route" = false)
    ∧ (app demoEnv exactMatch noBuckets 0 "OPTIONS" none
          { requestWith none with originalUrl := "/api/non-existent-route" }).1
        = .preflight := by
  refine ⟨by decide, by decide, by decide, by decide, by decide, by decide, by decide⟩

/-- C15 as amended: a request other than `OPTIONS`, whose body the parsers
accept, that the API rate limiter lets through, that matches no registered
route and whose path decodes, is answered, in any mode, with one response of
status 404 whose body has `success = false`, `code = 404` and the message
`Cannot find <originalUrl> on this server`. -/
theorem C15_unmatched_route_404 (env : ProcessEnv)
    (isMatch : Route → String → String → Bool) (b : Buckets) (now : Int)
    (method : String) (req : Request)
    (hmethod : method ≠ "OPTIONS")
    (hlimit : underApi req.originalUrl = true →
      ∃ st, (rateLimit (apiLimiterOptions env) b req now (fun _ => 0)).1 = .passed st)
    (hroute : ∀ r ∈ routes, isMatch r method req.originalUrl = false)
    (hpath : uriDecodes (pathname req.originalUrl) = true) :
    ∃ resp, (app env isMatch b now method none req).1 = .sent [resp]
      ∧ resp.status = 404 ∧ resp.body.success = false ∧ resp.body.code = 404
      ∧ resp.body.message = "Cannot find " ++ req.originalUrl ++ " on this server" := by
  have hf : routes.find? (fun r => isMatch r method req.originalUrl) = none := by
    rw [List.find?_eq_none]
    intro r hr
    simp [hroute r hr]
  obtain ⟨h₁, h₂, h₃, h₄⟩ := errorHandler_appError env
    ("Cannot find " ++ req.originalUrl ++ " on this server") 404 (by decide)
  refine ⟨errorHandler env
    (AppError ("Cannot find " ++ req.originalUrl ++ " on this server") 404), ?_, h₁, h₄, h₂, h₃⟩
  cases hu : underApi req.originalUrl with
  | false => simp [app, hmethod, hf, hpath, hu, respond, notFoundHandler]
  | true =>
    obtain ⟨st, hst⟩ := hlimit hu
    cases hr : rateLimit (apiLimiterOptions env) b req now (fun _ => 0) with
    | mk l b₁ =>
      rw [hr] at hst
      simp only at hst
      subst hst
      simp [app, hmethod, hf, hpath, hu, hr, respond, notFoundHandler]

/-- C15 as amended, on the request of the test suite, `GET
/api/non-existent-route`, in production and in development mode. -/
theorem C15_unmatched_route_404_witness :
    (∃ resp, (app demoEnv exactMatch noBuckets 0 "GET" none
          { requestWith none with originalUrl := "/api/non-existent-route" }).1 = .sent [resp]
      ∧ resp.status = 404 ∧ resp.body.success = false ∧ resp.body.code = 404
      ∧ resp.body.message = "Cannot find " ++ "/api/non-existent-route" ++ " on this server")
    ∧ (∃ resp, (app devEnv exactMatch noBuckets 0 "GET" none
          { requestWith none with originalUrl := "/api/non-existent-route" }).1 = .sent [resp]
      ∧ resp.status = 404 ∧ resp.body.success = false ∧ resp.body.code = 404
      ∧ resp.body.message = "Cannot find " ++ "/api/non-existent-route" ++ " on this server") :=
  ⟨C15_unmatched_route_404 demoEnv exactMatch noBuckets 0 "GET"
      { requestWith none with originalUrl := "/api/non-existent-route" }
      (by decide) (fun _ => ⟨0, by decide⟩) (by decide) (by decide),
   C15_unmatched_route_404 devEnv exactMatch noBuckets 0 "GET"
      { requestWith none with originalUrl := "/api/non-existent-route" }
      (by decide) (fun _ => ⟨0, by decide⟩) (by decide) (by decide)⟩

/-- A counted request is one hit more than the hits of the current window. -/
theorem increment_totalHits (opts : RateLimitOptions) (b : Buckets) (key : String)
    (now : Int) : (increment opts b key now).totalHits = hits b key now + 1 := by
  unfold increment hits
  cases b key with
  | none => rfl
  | some bk =>
    by_cases h : bk.resetTime ≤ now <;> simp [h]

/-- The window of a counted request is still open. -/
theorem increment_resetTime (opts : RateLimitOptions) (b : Buckets) (key : String)
    (now : Int) (hw : 0 < opts.windowMs) : ¬ (increment opts b key now).resetTime ≤ now := by
  unfold increment
  cases b key with
  | none =>
    simp only []
    omega
  | some bk =>
    by_cases h : bk.resetTime ≤ now
    · simp only [h, if_true]
      omega
    · simp [h]

/-- The hits of a key whose counter has just been set. -/
theorem hits_set (b : Buckets) (key : String) (v : Bucket) (now : Int) :
    hits (b.set key v) key now = if v.resetTime ≤ now then 0 else v.totalHits := by
  simp [hits, Buckets.set]

/-- The hits of a key whose counter has been set and then decremented. -/
theorem hits_decrement_set (b : Buckets) (key : String) (v : Bucket) (now : Int) :
    hits (decrement (b.set key v) key) key now
      = if v.resetTime ≤ now then 0 else v.totalHits - 1 := by
  simp [hits, decrement, Buckets.set]

/-- One request through a limiter whose window is positive: it is blocked, with
the module's 429 body and without running the rest of the chain, exactly when
the hits of the current window have reached `max`; otherwise the rest runs, and
the hits grow by one unless the limiter skips successful requests and the status
is below 400. Other addresses keep their counters. -/
theorem rateLimit_spec (opts : RateLimitOptions) (b : Buckets) (req : Request) (now : Int)
    (rest : Request → Nat) (hw : 0 < opts.windowMs) :
    (opts.max ≤ (hits b req.ip now : Int) →
        rateLimit opts b req now rest =
          (.blocked { status := 429,
                      body := { success := false, code := 429, message := opts.message,
                                errors := none } },
           b.set req.ip (increment opts b req.ip now)))
    ∧ ((hits b req.ip now : Int) < opts.max →
        (rateLimit opts b req now rest).1 = .passed (rest req)
          ∧ hits (rateLimit opts b req now rest).2 req.ip now =
              if opts.skipSuccessfulRequests = true ∧ rest req < 400 then hits b req.ip now
              else hits b req.ip now + 1)
    ∧ (∀ k, k ≠ req.ip → (rateLimit opts b req now rest).2 k = b k) := by
  have ht := increment_totalHits opts b req.ip now
  have hr := increment_resetTime opts b req.ip now hw
  refine ⟨fun h => ?_, fun h => ?_, fun k hk => ?_⟩
  · have : (↑(increment opts b req.ip now).totalHits : Int) > opts.max := by
      rw [ht]
      push_cast
      omega
    simp [rateLimit, this]
  · have hn : ¬ (↑(increment opts b req.ip now).totalHits : Int) > opts.max := by
      rw [ht]
      push_cast
      omega
    have e : rateLimit opts b req now rest =
        if (opts.skipSuccessfulRequests && decide (rest req < 400)) = true then
          (.passed (rest req), decrement (b.set req.ip (increment opts b req.ip now)) req.ip)
        else (.passed (rest req), b.set req.ip (increment opts b req.ip now)) := by
      simp only [rateLimit, hn, if_false]
    rw [e]
    by_cases hs : opts.skipSuccessfulRequests = true ∧ rest req < 400
    · have hs' : (opts.skipSuccessfulRequests && decide (rest req < 400)) = true := by
        simpa using hs
      rw [if_pos hs', if_pos hs]
      refine ⟨rfl, ?_⟩
      rw [hits_decrement_set, if_neg hr, ht]
      simp
    · have hs' : ¬ ((opts.skipSuccessfulRequests && decide (rest req < 400)) = true) := by
        simpa using hs
      rw [if_neg hs', if_neg hs]
      refine ⟨rfl, ?_⟩
      rw [hits_set, if_neg hr, ht]
  · unfold rateLimit
    simp only []
    split
    · simp [Buckets.set, hk]
    · split
      · unfold decrement
        simp [Buckets.set, hk]
      · simp [Buckets.set, hk]

/-- When the window of a counted request ends: that of the counter it found, if
still open, and `windowMs` after the request otherwise. -/
theorem increment_resetTime_eq (opts : RateLimitOptions) (b : Buckets) (key : String)
    (now : Int) :
    (increment opts b key now).resetTime =
      match b key with
      | some bk => if bk.resetTime ≤ now then now + opts.windowMs else bk.resetTime
      | none => now + opts.windowMs := by
  unfold increment
  cases b key with
  | none => rfl
  | some bk =>
    by_cases h : bk.resetTime ≤ now <;> simp [h]

/-- After a request the counter of its address ends when the counted request's
window ends. -/
theorem rateLimit_bucket (opts : RateLimitOptions) (b : Buckets) (req : Request) (now : Int)
    (rest : Request → Nat) :
    ∃ n, (rateLimit opts b req now rest).2 req.ip
      = some { totalHits := n, resetTime := (increment opts b req.ip now).resetTime } := by
  unfold rateLimit
  simp only []
  split
  · exact ⟨(increment opts b req.ip now).totalHits, by simp [Buckets.set]⟩
  · split
    · exact ⟨(increment opts b req.ip now).totalHits - 1, by simp [decrement, Buckets.set]⟩
    · exact ⟨(increment opts b req.ip now).totalHits, by simp [Buckets.set]⟩

/-- The hits a limiter with a positive window holds for an address after a
request, seen at any time: those it holds right after the request until the
window of the counted request ends, none from then on. -/
theorem rateLimit_hits_later (opts : RateLimitOptions) (b : Buckets) (req : Request)
    (now : Int) (rest : Request → Nat) (hw : 0 < opts.windowMs) (t : Int) :
    hits (rateLimit opts b req now rest).2 req.ip t =
      if (increment opts b req.ip now).resetTime ≤ t then 0
      else hits (rateLimit opts b req now rest).2 req.ip now := by
  obtain ⟨n, hn⟩ := rateLimit_bucket opts b req now rest
  have hr := increment_resetTime opts b req.ip now hw
  simp only [hits, hn, hr, if_false]

/-- C16: `authLimiter` has cap 5 and a fixed window of 15 minutes per source
address. Once 5 hits of an address are counted in its current window, the next
request from it is answered with the 429 body and the rest of the chain
(validation, `AuthService`) does not run: the outcome is the same whatever the
rest would do. Below the cap the rest runs; an attempt that ends below 400
leaves the count as it was and one that ends at 400 or above adds one. The
hits held after a request are held until the window ends, 15 minutes after the
request that opened it (the window of a counter still open is kept), and are
zero from then on; a request that finds an elapsed window passes and is counted
from zero, whatever was counted before. Counters of other addresses are
untouched. -/
theorem C16_auth_limiter (env : ProcessEnv) (b : Buckets) (req : Request) (now : Int)
    (rest : Request → Nat) :
    ((authLimiterOptions env).max = 5 ∧ (authLimiterOptions env).windowMs = 15 * 60 * 1000)
    ∧ (5 ≤ hits b req.ip now →
        (authLimiter env b req now rest).1 = .blocked tooManyAuth
          ∧ ∀ rest₂, authLimiter env b req now rest₂ = authLimiter env b req now rest)
    ∧ (hits b req.ip now < 5 →
        (authLimiter env b req now rest).1 = .passed (rest req)
          ∧ (rest req < 400 →
              hits (authLimiter env b req now rest).2 req.ip now = hits b req.ip now)
          ∧ (400 ≤ rest req →
              hits (authLimiter env b req now rest).2 req.ip now = hits b req.ip now + 1))
    ∧ (∀ t, hits (authLimiter env b req now rest).2 req.ip t =
        if (match b req.ip with
            | some bk => if bk.resetTime ≤ now then now + 15 * 60 * 1000 else bk.resetTime
            | none => now + 15 * 60 * 1000) ≤ t then 0
        else hits (authLimiter env b req now rest).2 req.ip now)
    ∧ (∀ bk, b req.ip = some bk → bk.resetTime ≤ now →
        hits b req.ip now = 0
          ∧ (authLimiter env b req now rest).1 = .passed (rest req)
          ∧ hits (authLimiter env b req now rest).2 req.ip now
              = if rest req < 400 then 0 else 1)
    ∧ (b req.ip = none → 400 ≤ rest req →
        (authLimiter env b req now rest).1 = .passed (rest req)
          ∧ ∀ t, hits (authLimiter env b req now rest).2 req.ip t =
              if now + 15 * 60 * 1000 ≤ t then 0 else 1)
    ∧ (∀ k, k ≠ req.ip → (authLimiter env b req now rest).2 k = b k) := by
  have hw : 0 < (authLimiterOptions env).windowMs := by
    show (0 : Int) < 15 * 60 * 1000
    decide
  have hwin : (authLimiterOptions env).windowMs = 15 * 60 * 1000 := rfl
  have hpass : hits b req.ip now < 5 →
      (authLimiter env b req now rest).1 = .passed (rest req)
        ∧ (rest req < 400 →
            hits (authLimiter env b req now rest).2 req.ip now = hits b req.ip now)
        ∧ (400 ≤ rest req →
            hits (authLimiter env b req now rest).2 req.ip now = hits b req.ip now + 1) := by
    intro h
    have h₁ : (hits b req.ip now : Int) < (authLimiterOptions env).max := by
      show _ < (5 : Int)
      omega
    obtain ⟨h₂, h₃⟩ := (rateLimit_spec (authLimiterOptions env) b req now rest hw).2.1 h₁
    refine ⟨h₂, fun hs => ?_, fun hf => ?_⟩
    · show hits (rateLimit (authLimiterOptions env) b req now rest).2 req.ip now = _
      rw [h₃, if_pos ⟨rfl, hs⟩]
    · show hits (rateLimit (authLimiterOptions env) b req now rest).2 req.ip now = _
      rw [h₃, if_neg (fun hc => absurd hc.2 (by omega))]
  have hlater : ∀ t, hits (authLimiter env b req now rest).2 req.ip t =
      if (match b req.ip with
          | some bk => if bk.resetTime ≤ now then now + 15 * 60 * 1000 else bk.resetTime
          | none => now + 15 * 60 * 1000) ≤ t then 0
      else hits (authLimiter env b req now rest).2 req.ip now := by
    intro t
    have h := rateLimit_hits_later (authLimiterOptions env) b req now rest hw t
    rw [increment_resetTime_eq, hwin] at h
    exact h
  refine ⟨⟨rfl, rfl⟩, fun h => ?_, hpass, hlater, fun bk hb ht => ?_, fun hb hf => ?_, ?_⟩
  · have hb : ∀ r, authLimiter env b req now r =
        (.blocked tooManyAuth,
         b.set req.ip (increment (authLimiterOptions env) b req.ip now)) := by
      intro r
      have h₁ : (authLimiterOptions env).max ≤ (hits b req.ip now : Int) := by
        show (5 : Int) ≤ _
        omega
      exact (rateLimit_spec (authLimiterOptions env) b req now r hw).1 h₁
    refine ⟨by rw [hb rest], fun rest₂ => ?_⟩
    rw [hb rest, hb rest₂]
  · have h0 : hits b req.ip now = 0 := by simp [hits, hb, ht]
    obtain ⟨h₁, h₂, h₃⟩ := hpass (by omega)
    refine ⟨h0, h₁, ?_⟩
    by_cases hs : rest req < 400
    · rw [if_pos hs, h₂ hs, h0]
    · rw [if_neg hs, h₃ (by omega), h0]
  · have h0 : hits b req.ip now = 0 := by simp [hits, hb]
    obtain ⟨h₁, -, h₃⟩ := hpass (by omega)
    refine ⟨h₁, fun t => ?_⟩
    have h := hlater t
    simp only [hb] at h
    rw [h, h₃ hf, h0]
  · exact (rateLimit_spec (authLimiterOptions env) b req now rest hw).2.2

/-- C16 on `POST /login` with the demo store: five attempts with a wrong
password from one address, the first at time 0, are each answered 401 and
counted. From then until the window ends the address gets 429 even with the
right password, one millisecond before the 15 minutes are over as well; at 15
minutes exactly the right password is answered 200 again. A successful attempt
is not counted, and the first failure of a window is counted for exactly 15
minutes. -/
theorem C16_auth_limiter_witness :
    (postLogins demoEnv demoLib (.up demoStore) noBuckets fiveFailures).1
        = [.passed 401, .passed 401, .passed 401, .passed 401, .passed 401]
    ∧ (postLogin demoEnv demoLib (.up demoStore)
        (postLogins demoEnv demoLib (.up demoStore) noBuckets fiveFailures).2
        (attempt 5000 "pw")).1 = .blocked tooManyAuth
    ∧ (postLogin demoEnv demoLib (.up demoStore)
        (postLogins demoEnv demoLib (.up demoStore) noBuckets fiveFailures).2
        (attempt 899999 "pw")).1 = .blocked tooManyAuth
    ∧ (postLogin demoEnv demoLib (.up demoStore)
        (postLogins demoEnv demoLib (.up demoStore) noBuckets fiveFailures).2
        (attempt 900000 "pw")).1 = .passed 200
    ∧ (postLogin demoEnv demoLib (.up demoStore) noBuckets (attempt 0 "pw")).1 = .passed 200
    ∧ hits (postLogin demoEnv demoLib (.up demoStore) noBuckets (attempt 0 "pw")).2
        "10.0.0.1" 0 = hits noBuckets "10.0.0.1" 0
    ∧ (∀ t, hits (postLogin demoEnv demoLib (.up demoStore) noBuckets (attempt 0 "x")).2
        "10.0.0.1" t = if 0 + 15 * 60 * 1000 ≤ t then 0 else 1) :=
  ⟨by decide,
   ((C16_auth_limiter demoEnv
      (postLogins demoEnv demoLib (.up demoStore) noBuckets fiveFailures).2
      { authorization := none, user := none, originalUrl := "/api/v1/auth/login",
        ip := "10.0.0.1" } 5000
      (fun _ => loginStatus demoEnv demoLib (.up demoStore) 5000 [] "a@x.io" "pw")).2.1
      (by decide)).1,
   ((C16_auth_limiter demoEnv
      (postLogins demoEnv demoLib (.up demoStore) noBuckets fiveFailures).2
      { authorization := none, user := none, originalUrl := "/api/v1/auth/login",
        ip := "10.0.0.1" } 899999
      (fun _ => loginStatus demoEnv demoLib (.up demoStore) 899999 [] "a@x.io" "pw")).2.1
      (by decide)).1,
   ((C16_auth_limiter demoEnv
      (postLogins demoEnv demoLib (.up demoStore) noBuckets fiveFailures).2
      { authorization := none, user := none, originalUrl := "/api/v1/auth/login",
        ip := "10.0.0.1" } 900000
      (fun _ => loginStatus demoEnv demoLib (.up demoStore) 900000 [] "a@x.io" "pw")).2.2.2.2.1
      { totalHits := 5, resetTime := 900000 } (by decide) (by decide)).2.1.trans (by decide),
   ((C16_auth_limiter demoEnv noBuckets
      { authorization := none, user := none, originalUrl := "/api/v1/auth/login",
        ip := "10.0.0.1" } 0
      (fun _ => loginStatus demoEnv demoLib (.up demoStore) 0 [] "a@x.io" "pw")).2.2.1
      (by decide)).1.trans (by decide),
   ((C16_auth_limiter demoEnv noBuckets
      { authorization := none, user := none, originalUrl := "/api/v1/auth/login",
        ip := "10.0.0.1" } 0
      (fun _ => loginStatus demoEnv demoLib (.up demoStore) 0 [] "a@x.io" "pw")).2.2.1
      (by decide)).2.1 (by decide),
   ((C16_auth_limiter demoEnv noBuckets
      { authorization := none, user := none, originalUrl := "/api/v1/auth/login",
        ip := "10.0.0.1" } 0
      (fun _ => loginStatus demoEnv demoLib (.up demoStore) 0 [] "a@x.io" "x")).2.2.2.2.2.1
      rfl (by decide)).2⟩

/-- Every hash `register` computes is computed at cost 12. -/
theorem register_hash_cost (env : ProcessEnv) (lib : Lib) (now : Nat) (db : Prisma)
    (data : UserData) (password : String) (cost : Nat)
    (h : Effect.bcryptHash password cost ∈ (AuthService.register env lib now db data).trace) :
    cost = 12 := by
  unfold AuthService.register at h
  cases hf : db.findUniqueByEmail data.email with
  | error e => simp [hf] at h
  | ok found =>
    cases found with
    | some u => simp [hf] at h
    | none =>
      simp only [hf] at h
      cases hc : db.create data.email (lib.bcryptHash data.password 12) data.firstName
          data.lastName now with
      | error e =>
        simp [hc] at h
        exact h.2
      | ok pair =>
        obtain ⟨row, db₁⟩ := pair
        simp only [hc] at h
        cases hm : EmailService.sendWelcomeEmail env lib (row.select registerSelect) <;>
          cases hg : AuthService.generateToken env lib now row.id <;>
          simp [hm, hg] at h <;> exact h.2

/-- C17, the claim refuted: no two configurations make `register` hash at
different costs, and no two configurations give `authLimiter` different windows
or different caps. -/
theorem C17_cost_and_auth_limits_are_constants :
    ¬ (∃ (env₁ env₂ : ProcessEnv) (lib : Lib) (now : Nat) (db : Prisma) (data : UserData)
        (password : String) (c₁ c₂ : Nat),
        Effect.bcryptHash password c₁ ∈ (AuthService.register env₁ lib now db data).trace
          ∧ Effect.bcryptHash password c₂ ∈ (AuthService.register env₂ lib now db data).trace
          ∧ c₁ ≠ c₂)
    ∧ ¬ (∃ env₁ env₂ : ProcessEnv,
        (authLimiterOptions env₁).windowMs ≠ (authLimiterOptions env₂).windowMs)
    ∧ ¬ (∃ env₁ env₂ : ProcessEnv,
        (authLimiterOptions env₁).max ≠ (authLimiterOptions env₂).max) := by
  refine ⟨?_, ?_, ?_⟩
  · rintro ⟨env₁, env₂, lib, now, db, data, password, c₁, c₂, h₁, h₂, hne⟩
    have e₁ := register_hash_cost env₁ lib now db data password c₁ h₁
    have e₂ := register_hash_cost env₂ lib now db data password c₂ h₂
    exact hne (e₁.trans e₂.symm)
  · rintro ⟨env₁, env₂, h⟩
    exact h rfl
  · rintro ⟨env₁, env₂, h⟩
    exact h rfl

/-- C17 as amended: the signing secret and the expiry duration come from the
environment (`JWT_SECRET`, and `JWT_EXPIRES_IN` with `7d` for default): two
environments that differ in one of them only issue different tokens. The hashing
cost is 12 and the window and cap of `authLimiter` are 15 minutes and 5 under
every environment. The window and cap of `apiLimiter` come from the environment
(`RATE_LIMIT_WINDOW_MS`, `RATE_LIMIT_MAX_REQUESTS`, with 15 minutes and 100 for
defaults), and leave those of `authLimiter` as they are. -/
theorem C17_configuration_surface :
    (∀ (env : ProcessEnv) (lib : Lib) (now : Nat) (id : UserId),
        AuthService.generateToken env lib now id
          = jwtSign lib.jwt id env.JWT_SECRET (orElseStr env.JWT_EXPIRES_IN "7d") now)
    ∧ AuthService.generateToken demoEnv demoLib 1 1
        ≠ AuthService.generateToken { demoEnv with JWT_SECRET := some "j" } demoLib 1 1
    ∧ AuthService.generateToken demoEnv demoLib 1 1
        ≠ AuthService.generateToken { demoEnv with JWT_EXPIRES_IN := some "1h" } demoLib 1 1
    ∧ AuthService.generateToken { demoEnv with JWT_EXPIRES_IN := none } demoLib 1 1
        = AuthService.generateToken { demoEnv with JWT_EXPIRES_IN := some "7d" } demoLib 1 1
    ∧ (∀ (env : ProcessEnv) (lib : Lib) (now : Nat) (db : Prisma) (data : UserData)
        (password : String) (cost : Nat),
        Effect.bcryptHash password cost ∈ (AuthService.register env lib now db data).trace →
        cost = 12)
    ∧ (∀ env : ProcessEnv,
        (authLimiterOptions env).windowMs = 15 * 60 * 1000 ∧ (authLimiterOptions env).max = 5)
    ∧ (apiLimiterOptions demoEnv).windowMs = 15 * 60 * 1000
    ∧ (apiLimiterOptions demoEnv).max = 100
    ∧ (apiLimiterOptions { demoEnv with RATE_LIMIT_WINDOW_MS := some "60000" }).windowMs
        = 60000
    ∧ (apiLimiterOptions { demoEnv with RATE_LIMIT_MAX_REQUESTS := some "20" }).max = 20
    ∧ authLimiterOptions
          { demoEnv with RATE_LIMIT_WINDOW_MS := some "60000",
                         RATE_LIMIT_MAX_REQUESTS := some "20" }
        = authLimiterOptions demoEnv := by
  refine ⟨fun _ _ _ _ => rfl, by decide, by decide, ?_, ?_, fun _ => ⟨rfl, rfl⟩,
    by decide, by decide, by decide, by decide, rfl⟩
  · simp [AuthService.generateToken, orElseStr, truthyStr]
  · intro env lib now db data password cost h
    exact register_hash_cost env lib now db data password cost h

/-- C17 as amended, on the demo store: the hash of a registration is computed
at cost 12. -/
theorem C17_configuration_surface_witness :
    Effect.bcryptHash "pw" 12 ∈ (AuthService.register demoEnv demoLib 5 (.up demoStore)
        { email := "b@x.io", password := "pw", firstName := "B", lastName := "M" }).trace
      ∧ (12 : Nat) = 12 :=
  ⟨by decide,
   C17_configuration_surface.2.2.2.2.1 demoEnv demoLib 5 (.up demoStore)
      { email := "b@x.io", password := "pw", firstName := "B", lastName := "M" }
      "pw" 12 (by decide)⟩

/-- C18: what `register` resolves to or rejects with, and the store it leaves,
do not depend on the mailer: with a welcome email that fails they are what they
are with one that succeeds. On the demo store a failing mailer is logged and the
registration succeeds with the same user and token. -/
theorem C18_welcome_email_failure_ignored (env : ProcessEnv) (lib : Lib) (now : Nat)
    (db : Prisma) (data : UserData) (mail₁ mail₂ : MailOptions → Except JsError String) :
    (AuthService.register env { lib with sendMail := mail₁ } now db data).result
        = (AuthService.register env { lib with sendMail := mail₂ } now db data).result
    ∧ (AuthService.register env { lib with sendMail := mail₁ } now db data).db
        = (AuthService.register env { lib with sendMail := mail₂ } now db data).db
    ∧ (EmailService.sendWelcomeEmail demoEnv { demoLib with sendMail := failingMail }
          ((createdRow demoLib 5 demoStore bobData).select registerSelect)).toOption = none
    ∧ (AuthService.register demoEnv { demoLib with sendMail := failingMail } 5
          (.up demoStore) bobData).result
        = .ok { user := (createdRow demoLib 5 demoStore bobData).select registerSelect,
                token := "k.ii.aaaaa.eeeeeeeeee" }
    ∧ (AuthService.register demoEnv { demoLib with sendMail := failingMail } 5
          (.up demoStore) bobData).trace
        = [.findUnique, .bcryptHash "pw" 12, .create "b@x.io",
           .sendWelcomeEmail (some "b@x.io"),
           .logWarn "Failed to send welcome email: connect ECONNREFUSED 127.0.0.1:587",
           .jwtSign 2] := by
  refine ⟨?_, ?_, by decide, by decide, by decide⟩
  · cases hf : db.findUniqueByEmail data.email with
    | error e => simp [AuthService.register, hf]
    | ok found =>
      cases found with
      | some u => simp [AuthService.register, hf]
      | none =>
        cases hc : db.create data.email (lib.bcryptHash data.password 12) data.firstName
            data.lastName now with
        | error e => simp [AuthService.register, hf, hc]
        | ok pair =>
          obtain ⟨row, db₁⟩ := pair
          cases hg : jwtSign lib.jwt row.id env.JWT_SECRET
              (orElseStr env.JWT_EXPIRES_IN "7d") now <;>
            simp [AuthService.register, AuthService.generateToken, hf, hc, hg]
  · cases hf : db.findUniqueByEmail data.email with
    | error e => simp [AuthService.register, hf]
    | ok found =>
      cases found with
      | some u => simp [AuthService.register, hf]
      | none =>
        cases hc : db.create data.email (lib.bcryptHash data.password 12) data.firstName
            data.lastName now with
        | error e => simp [AuthService.register, hf, hc]
        | ok pair =>
          obtain ⟨row, db₁⟩ := pair
          cases hg : jwtSign lib.jwt row.id env.JWT_SECRET
              (orElseStr env.JWT_EXPIRES_IN "7d") now <;>
            simp [AuthService.register, AuthService.generateToken, hf, hc, hg]

/-- C19, the code at two failing inputs: `fileFilter` tests both the extension
and the MIME type with the unanchored expression `/jpeg|jpg|png|gif|pdf|doc|docx/`,
that is, for a listed word occurring anywhere. A Word document `report.doc` of
type `application/msword`, in which none of the words occurs, is rejected with
the 400 error; a file `notes.pdfx`, whose extension `.pdfx` contains `pdf`, is
accepted. -/
theorem C19_fileFilter_matches_substrings :
    extname "report.doc" = ".doc"
      ∧ regexTest allowedTypes "application/msword" = false
      ∧ fileFilter { originalname := "report.doc", mimetype := "application/msword" }
          = .error (AppError
              "Invalid file type. Only JPEG, PNG, GIF, PDF, DOC, and DOCX files are allowed" 400)
      ∧ extname "notes.pdfx" = ".pdfx"
      ∧ regexTest allowedTypes ".pdfx" = true
      ∧ fileFilter { originalname := "notes.pdfx", mimetype := "application/pdf" }
          = .ok true := by
  refine ⟨by decide, by decide, by decide, by decide, by decide, by decide⟩

/-- C20: `protect` and `optionalAuth` go on with the same token: the second
piece of the header split on single spaces when the header starts with `Bearer`
(letter case included) and that piece exists and is not empty. With no such
token `protect` answers with the 401 error `not logged in` and `optionalAuth`
proceeds without calling a library; with one, both hand that very token to
`jwt.verify`: `protect` forwards the error it throws or goes on to the lookup by
the decoded id, `optionalAuth` calls `jwt.verify` on it and then looks up the
decoded id. So `Bearer`, `Bearer  x` and `bearer x` carry no token, and
`BearerXYZ x` carries the token `x`. -/
theorem C20_bearer_token (env : ProcessEnv) (lib : Lib) (now : Nat) (db : Prisma)
    (req : Request) (h : String) :
    bearerToken none = none
    ∧ bearerToken (some h) =
        (if startsWith h "Bearer" then
          match splitAt? h ' ' 1 with
          | some t => if t = "" then none else some t
          | none => none
        else none)
    ∧ (optionalAuthRun env lib now db req).2 =
        (match bearerToken req.authorization with
          | none => []
          | some token =>
            LibCall.jwtVerify token ::
              (match jwtVerify lib.jwt token env.JWT_SECRET now with
                | .ok decoded => [LibCall.findUnique decoded.id]
                | .error _ => []))
    ∧ (bearerToken req.authorization = none →
        protect env lib now db req =
            { req := req, sent := [], nextCalls :=
              [some (AppError
                "You are not logged in. Please login to access this resource" 401)] }
          ∧ optionalAuth env lib now db req = { req := req, nextCalls := [none], sent := [] }
          ∧ (optionalAuthRun env lib now db req).2 = [])
    ∧ (∀ token e, bearerToken req.authorization = some token →
        jwtVerify lib.jwt token env.JWT_SECRET now = .error e →
        (protect env lib now db req).nextCalls = [some e]
          ∧ (optionalAuthRun env lib now db req).2 = [.jwtVerify token])
    ∧ (∀ token decoded, bearerToken req.authorization = some token →
        jwtVerify lib.jwt token env.JWT_SECRET now = .ok decoded →
        ((protect env lib now db req).nextCalls = [none] ↔
            ∃ row, db.findUniqueById decoded.id = .ok (some row) ∧ row.isActive = true)
          ∧ (optionalAuthRun env lib now db req).2
              = [.jwtVerify token, .findUnique decoded.id])
    ∧ bearerToken (some "Bearer") = none
    ∧ bearerToken (some "Bearer  x") = none
    ∧ bearerToken (some "bearer x") = none
    ∧ bearerToken (some "BearerXYZ x") = some "x"
    ∧ bearerToken (some "Bearer x") = some "x"
    ∧ (protect demoEnv demoLib 3 (.up demoStore)
        (requestWith (some "BearerXYZ k.i.a.eeeeee"))).req.user
        = some (alice.select protectSelect)
    ∧ (optionalAuthRun demoEnv demoLib 3 (.up demoStore)
        (requestWith (some "BearerXYZ k.i.a.eeeeee"))).2
        = [.jwtVerify "k.i.a.eeeeee", .findUnique 1] := by
  have hcalls : (optionalAuthRun env lib now db req).2 =
      (match bearerToken req.authorization with
        | none => []
        | some token =>
          LibCall.jwtVerify token ::
            (match jwtVerify lib.jwt token env.JWT_SECRET now with
              | .ok decoded => [LibCall.findUnique decoded.id]
              | .error _ => [])) := by
    rw [optionalAuthRun_eq]
    cases bearerToken req.authorization with
    | none => rfl
    | some token =>
      simp only []
      cases jwtVerify lib.jwt token env.JWT_SECRET now <;> rfl
  refine ⟨rfl, ?_, hcalls, fun hn => ?_, fun token e hT hV => ?_,
    fun token decoded hT hV => ?_, by decide, by decide, by decide, by decide, by decide,
    by decide, by decide⟩
  · by_cases he : h = ""
    · subst he
      decide
    · cases hs : startsWith h "Bearer" with
      | false => simp [bearerToken, headerToken, truthyStr, he, hs]
      | true =>
        cases ht : splitAt? h ' ' 1 with
        | none => simp [bearerToken, headerToken, truthyStr, he, hs, ht]
        | some t => simp [bearerToken, headerToken, truthyStr, he, hs, ht]
  · refine ⟨?_, optionalAuth_eq env lib now db req, ?_⟩
    · rw [protect_eq]
      simp [hn]
    · rw [hcalls]
      simp [hn]
  · refine ⟨?_, ?_⟩
    · rw [protect_eq]
      simp [hT, hV]
    · rw [hcalls]
      simp [hT, hV]
  · refine ⟨?_, ?_⟩
    · rw [protect_eq]
      simp only [hT, hV]
      cases hF : db.findUniqueById decoded.id with
      | error e => simp
      | ok found =>
        cases found with
        | none => simp
        | some row =>
          cases hA : row.isActive <;> simp [hA]
    · rw [hcalls]
      simp [hT, hV]

/-- C20 on four requests: the headers `Bearer`, `Bearer  x` and `bearer x` are
answered by `protect` as requests without a token and make `optionalAuth` call
no library; with `BearerXYZ x` both hand the token `x` to `jwt.verify`, whose
error `protect` forwards. -/
theorem C20_bearer_token_witness :
    ((protect demoEnv demoLib 3 (.up demoStore) (requestWith (some "Bearer"))).nextCalls
        = [some (AppError "You are not logged in. Please login to access this resource" 401)]
      ∧ (optionalAuthRun demoEnv demoLib 3 (.up demoStore) (requestWith (some "Bearer"))).2
        = [])
    ∧ ((protect demoEnv demoLib 3 (.up demoStore) (requestWith (some "Bearer  x"))).nextCalls
        = [some (AppError "You are not logged in. Please login to access this resource" 401)]
      ∧ (optionalAuthRun demoEnv demoLib 3 (.up demoStore)
          (requestWith (some "Bearer  x"))).2 = [])
    ∧ ((protect demoEnv demoLib 3 (.up demoStore) (requestWith (some "bearer x"))).nextCalls
        = [some (AppError "You are not logged in. Please login to access this resource" 401)]
      ∧ (optionalAuthRun demoEnv demoLib 3 (.up demoStore)
          (requestWith (some "bearer x"))).2 = [])
    ∧ ((protect demoEnv demoLib 3 (.up demoStore)
          (requestWith (some "BearerXYZ x"))).nextCalls
        = [some (plainError "JsonWebTokenError" "invalid signature")]
      ∧ (optionalAuthRun demoEnv demoLib 3 (.up demoStore)
          (requestWith (some "BearerXYZ x"))).2 = [.jwtVerify "x"]) :=
  ⟨⟨congrArg MwOutcome.nextCalls
      ((C20_bearer_token demoEnv demoLib 3 (.up demoStore) (requestWith (some "Bearer"))
        "Bearer").2.2.2.1 (by decide)).1,
    ((C20_bearer_token demoEnv demoLib 3 (.up demoStore) (requestWith (some "Bearer"))
        "Bearer").2.2.2.1 (by decide)).2.2⟩,
   ⟨congrArg MwOutcome.nextCalls
      ((C20_bearer_token demoEnv demoLib 3 (.up demoStore) (requestWith (some "Bearer  x"))
        "Bearer  x").2.2.2.1 (by decide)).1,
    ((C20_bearer_token demoEnv demoLib 3 (.up demoStore) (requestWith (some "Bearer  x"))
        "Bearer  x").2.2.2.1 (by decide)).2.2⟩,
   ⟨congrArg MwOutcome.nextCalls
      ((C20_bearer_token demoEnv demoLib 3 (.up demoStore) (requestWith (some "bearer x"))
        "bearer x").2.2.2.1 (by decide)).1,
    ((C20_bearer_token demoEnv demoLib 3 (.up demoStore) (requestWith (some "bearer x"))
        "bearer x").2.2.2.1 (by decide)).2.2⟩,
   (C20_bearer_token demoEnv demoLib 3 (.up demoStore) (requestWith (some "BearerXYZ x"))
      "BearerXYZ x").2.2.2.2.1 "x" (plainError "JsonWebTokenError" "invalid signature")
      (by decide) (by decide)⟩

end Boilerplate
